import Mathlib

/-!
LÖVE graphics `Buffer`: format validation and memory layout.

A shallow embedding of `src/modules/graphics/Buffer.cpp`:

* `Buffer.construct` embeds the constructor `Buffer::Buffer` (lines 31-149),
  split into `checkDeclaration` (the per-declaration checks, lines 69-118),
  `layoutMembers` (the `for` loop, lines 62-127) and `resolveSize`
  (lines 131-141).

Modelling conventions.

* `size_t` is taken to be 64 bits wide.  The results of `size += stride - remainder`
  (line 135), `arraylength * stride` (line 140) and `arraylength * dataMembers.size()`
  (line 147) are reduced modulo 2^64 by `wrapSize`.  The byte cursor of the loop is not
  reduced: it is a sum of format sizes and would need some 2^58 declarations to wrap.
* A thrown `love::Exception` is an `Except.error` carrying a `BufferError` that
  identifies the `throw` statement; the message text is not modelled.
* `size % stride` with `stride == 0` is undefined behaviour in C++; the embedding
  reports it as the separate outcome `BufferError.divisionByZero`.
* `Buffer.h`, `Graphics.h` and the data-format catalogue are not part of the
  sources at hand.  The format type is a parameter `F`, the catalogue is a
  parameter `FormatCatalog F`, and the capability snapshot is a value of
  `Capabilities`.
-/

set_option autoImplicit false

namespace love
namespace graphics

/-! ## Data model -/

/-- Base type class of a data format (the `DATA_BASETYPE_*` tags). -/
inductive DataBaseType
  | DATA_BASETYPE_FLOAT
  | DATA_BASETYPE_INT
  | DATA_BASETYPE_UINT
  | DATA_BASETYPE_SNORM
  | DATA_BASETYPE_UNORM
  | DATA_BASETYPE_BOOL
  deriving DecidableEq, Repr

open DataBaseType

/-- Metadata of a data format: the fields of `DataFormatInfo` that `Buffer.cpp` reads
(`baseType`, `isMatrix`, `components`, `size`). -/
structure DataFormatInfo where
  baseType : DataBaseType
  isMatrix : Bool
  components : Nat
  size : Nat
  deriving DecidableEq, Repr

/-- Modelled from the spec: the `DataFormat` enum and the `DataFormatInfo` catalogue are
declared in headers that are not among the sources.  A catalogue over a format type `F`
gives the metadata of every format ("every defined DataFormat has an entry") and names the
two formats `DATAFORMAT_UINT16` and `DATAFORMAT_UINT32` that the constructor compares with. -/
structure FormatCatalog (F : Type) where
  getDataFormatInfo : F → DataFormatInfo
  DATAFORMAT_UINT16 : F
  DATAFORMAT_UINT32 : F

/-- A named field request `{name, format, arrayLength}` (`Buffer::DataDeclaration`); the
array length is 0 when it is not given. -/
structure DataDeclaration (F : Type) where
  name : String
  format : F
  arrayLength : Nat := 0
  deriving DecidableEq, Repr

/-- A resolved field (`Buffer::DataMember`): the declaration, its format metadata, and the
computed byte offset and byte size.  The C++ constructor `DataMember(decl)` is declared in
`Buffer.h`; the loop body reads `member.decl` and `member.info` right after it, and the
embedding takes them to be `decl` and the catalogue entry of `decl.format`. -/
structure DataMember (F : Type) where
  decl : DataDeclaration F
  info : DataFormatInfo
  offset : Nat
  size : Nat
  deriving DecidableEq, Repr

/-- Feature flags of the capability snapshot that the constructor reads. -/
inductive Feature
  | FEATURE_GLSL3
  | FEATURE_TEXEL_BUFFER
  deriving DecidableEq, Repr

/-- Numeric limits of the capability snapshot that the constructor reads. -/
inductive SystemLimit
  | LIMIT_TEXEL_BUFFER_SIZE
  deriving DecidableEq, Repr

/-- Modelled from the spec: the capability snapshot returned by `gfx->getCapabilities()`
(declared in `Graphics.h`, not among the sources): backend-reported feature flags and
numeric limits. -/
structure Capabilities where
  features : Feature → Bool
  limits : SystemLimit → Nat

/-- Modelled from the spec: bit of the VERTEX role in `typeFlags` (the `TYPEFLAG_*`
constants are declared in `Buffer.h`, not among the sources; the three are distinct
single bits of a combinable bitset). -/
def TYPEFLAG_VERTEX : Nat := 1

/-- Modelled from the spec: bit of the INDEX role in `typeFlags`. -/
def TYPEFLAG_INDEX : Nat := 2

/-- Modelled from the spec: bit of the TEXEL role in `typeFlags`. -/
def TYPEFLAG_TEXEL : Nat := 4

/-- The `Buffer::Settings` fields the constructor copies: the type-flag bitset and the
usage and map-flag values (kept as uninterpreted numbers). -/
structure Settings where
  typeFlags : Nat
  usage : Nat := 0
  mapFlags : Nat := 0
  deriving DecidableEq, Repr

/-- The test `settings.typeFlags & flag` converted to `bool` (lines 49-51). -/
def Settings.hasFlag (settings : Settings) (flag : Nat) : Bool :=
  (settings.typeFlags &&& flag) != 0

/-- The data members of the class `Buffer` after construction. -/
structure Buffer (F : Type) where
  dataMembers : List (DataMember F)
  arrayLength : Nat
  arrayStride : Nat
  size : Nat
  typeFlags : Nat
  usage : Nat
  mapFlags : Nat
  mapped : Bool
  deriving DecidableEq, Repr

/-- One constructor per `throw love::Exception(...)` statement of `Buffer::Buffer`, in
source order, and `divisionByZero` for the undefined `size % 0`. -/
inductive BufferError
  | sizeOrArrayLengthMustBeSpecified
  | dataFormatMustContainValues
  | atLeastOneBufferType
  | texelBuffersNotSupported
  | indexOnlyUint16Uint32
  | indexSingleValue
  | indexArraysNotSupported
  | vertexArraysNotSupported
  | vertexMatrixNotSupported
  | vertexBoolNotSupported
  | vertexIntegerRequiresGLSL3
  | vertexMustHaveName
  | texelSameFormat
  | texelArraysNotSupported
  | texelMatrixNotSupported
  | texelBoolNotSupported
  | texelThreeComponentsNotSupported
  | texelSignedNormalizedNotSupported
  | texelTooLarge
  | divisionByZero
  deriving DecidableEq, Repr

/-- The failure kinds of the specification (section 7). -/
inductive ErrorKind
  | InvalidArgument
  | InvalidFormat
  | UnsupportedFeature
  | ResourceLimitExceeded
  deriving DecidableEq, Repr

/-- Modelled from the spec: the source throws one exception type only; the kind of each
failure is the one section 4.1 assigns to the step that raises it.  The undefined division
has no kind. -/
def BufferError.kind : BufferError → Option ErrorKind
  | .sizeOrArrayLengthMustBeSpecified => some .InvalidArgument
  | .dataFormatMustContainValues => some .InvalidArgument
  | .atLeastOneBufferType => some .InvalidArgument
  | .texelBuffersNotSupported => some .UnsupportedFeature
  | .indexOnlyUint16Uint32 => some .InvalidFormat
  | .indexSingleValue => some .InvalidFormat
  | .indexArraysNotSupported => some .InvalidFormat
  | .vertexArraysNotSupported => some .InvalidFormat
  | .vertexMatrixNotSupported => some .InvalidFormat
  | .vertexBoolNotSupported => some .InvalidFormat
  | .vertexIntegerRequiresGLSL3 => some .UnsupportedFeature
  | .vertexMustHaveName => some .InvalidFormat
  | .texelSameFormat => some .InvalidFormat
  | .texelArraysNotSupported => some .InvalidFormat
  | .texelMatrixNotSupported => some .InvalidFormat
  | .texelBoolNotSupported => some .InvalidFormat
  | .texelThreeComponentsNotSupported => some .InvalidFormat
  | .texelSignedNormalizedNotSupported => some .InvalidFormat
  | .texelTooLarge => some .ResourceLimitExceeded
  | .divisionByZero => none

/-! ## The constructor -/

section Constructor

variable {F : Type} [DecidableEq F]

/-- The `if (indexbuffer)` block of the loop body (lines 69-79). -/
def checkIndex (cat : FormatCatalog F) (bufferformat : List (DataDeclaration F))
    (decl : DataDeclaration F) : Except BufferError Unit :=
  if decl.format ≠ cat.DATAFORMAT_UINT16 ∧ decl.format ≠ cat.DATAFORMAT_UINT32 then
    .error .indexOnlyUint16Uint32
  else if bufferformat.length > 1 then
    .error .indexSingleValue
  else if decl.arrayLength > 0 then
    .error .indexArraysNotSupported
  else
    .ok ()

/-- The `if (vertexbuffer)` block of the loop body (lines 81-97). -/
def checkVertex (cat : FormatCatalog F) (supportsGLSL3 : Bool)
    (decl : DataDeclaration F) : Except BufferError Unit :=
  let info := cat.getDataFormatInfo decl.format
  if decl.arrayLength > 0 then
    .error .vertexArraysNotSupported
  else if info.isMatrix then
    .error .vertexMatrixNotSupported
  else if info.baseType = DATA_BASETYPE_BOOL then
    .error .vertexBoolNotSupported
  else if (info.baseType = DATA_BASETYPE_INT ∨ info.baseType = DATA_BASETYPE_UINT)
      ∧ supportsGLSL3 = false then
    .error .vertexIntegerRequiresGLSL3
  else if decl.name.isEmpty then
    .error .vertexMustHaveName
  else
    .ok ()

/-- The `if (texelbuffer)` block of the loop body (lines 99-118).  `bufferformat[0]` exists
whenever the loop body runs; on an empty list the comparison is skipped. -/
def checkTexel (cat : FormatCatalog F) (bufferformat : List (DataDeclaration F))
    (decl : DataDeclaration F) : Except BufferError Unit :=
  let info := cat.getDataFormatInfo decl.format
  if (match bufferformat.head? with
      | some first => decide (decl.format ≠ first.format)
      | none => false) then
    .error .texelSameFormat
  else if decl.arrayLength > 0 then
    .error .texelArraysNotSupported
  else if info.isMatrix then
    .error .texelMatrixNotSupported
  else if info.baseType = DATA_BASETYPE_BOOL then
    .error .texelBoolNotSupported
  else if info.components = 3 then
    .error .texelThreeComponentsNotSupported
  else if info.baseType = DATA_BASETYPE_SNORM then
    .error .texelSignedNormalizedNotSupported
  else
    .ok ()

/-- The checks of one loop iteration (lines 69-118): the index block, then the vertex
block, then the texel block, each only when its flag is set; the first failing check
throws. -/
def checkDeclaration (cat : FormatCatalog F)
    (supportsGLSL3 indexbuffer vertexbuffer texelbuffer : Bool)
    (bufferformat : List (DataDeclaration F)) (decl : DataDeclaration F) :
    Except BufferError Unit :=
  match (if indexbuffer then checkIndex cat bufferformat decl else .ok ()) with
  | .error e => .error e
  | .ok _ =>
    match (if vertexbuffer then checkVertex cat supportsGLSL3 decl else .ok ()) with
    | .error e => .error e
    | .ok _ => if texelbuffer then checkTexel cat bufferformat decl else .ok ()

/-- The `for` loop over the declarations (lines 62-127), started with `offset = 0` and no
members: each declaration is checked, then laid out at the running `offset` with the size
of its format, and appended to `dataMembers`.  Returns the final `offset` and the
members. -/
def layoutMembers (cat : FormatCatalog F)
    (supportsGLSL3 indexbuffer vertexbuffer texelbuffer : Bool)
    (bufferformat : List (DataDeclaration F)) :
    List (DataDeclaration F) → Nat → List (DataMember F) →
      Except BufferError (Nat × List (DataMember F))
  | [], offset, dataMembers => .ok (offset, dataMembers)
  | decl :: rest, offset, dataMembers =>
    match checkDeclaration cat supportsGLSL3 indexbuffer vertexbuffer texelbuffer
        bufferformat decl with
    | .error e => .error e
    | .ok _ =>
      let info := cat.getDataFormatInfo decl.format
      let member : DataMember F :=
        { decl := decl, info := info, offset := offset, size := info.size }
      layoutMembers cat supportsGLSL3 indexbuffer vertexbuffer texelbuffer bufferformat
        rest (offset + member.size) (dataMembers ++ [member])

/-- The value that a `size_t` holds after an addition or a multiplication whose exact
result is `n`: unsigned 64-bit arithmetic wraps around. -/
def wrapSize (n : Nat) : Nat :=
  n % 2 ^ 64

/-- Size resolution (lines 131-141): returns the final `(size, arraylength)`.  A requested
size is rounded up to a multiple of `stride` and the array length derived from it;
otherwise the size is derived from the requested array length.  The addition of line 135
and the product of line 140 wrap around as `size_t` does. -/
def resolveSize (stride size arraylength : Nat) : Except BufferError (Nat × Nat) :=
  if size ≠ 0 then
    if stride = 0 then
      .error .divisionByZero
    else
      let remainder := size % stride
      let size := if remainder > 0 then wrapSize (size + (stride - remainder)) else size
      .ok (size, size / stride)
  else
    .ok (wrapSize (arraylength * stride), arraylength)

/-- Embedding of the constructor `Buffer::Buffer(gfx, settings, bufferformat, size,
arraylength)` (lines 31-149); `caps` is `gfx->getCapabilities()`. -/
def Buffer.construct (cat : FormatCatalog F) (caps : Capabilities) (settings : Settings)
    (bufferformat : List (DataDeclaration F)) (size arraylength : Nat) :
    Except BufferError (Buffer F) :=
  if size = 0 ∧ arraylength = 0 then
    .error .sizeOrArrayLengthMustBeSpecified
  else if bufferformat.length = 0 then
    .error .dataFormatMustContainValues
  else
    let supportsGLSL3 := caps.features .FEATURE_GLSL3
    let indexbuffer := settings.hasFlag TYPEFLAG_INDEX
    let vertexbuffer := settings.hasFlag TYPEFLAG_VERTEX
    let texelbuffer := settings.hasFlag TYPEFLAG_TEXEL
    if (!indexbuffer && !vertexbuffer && !texelbuffer) then
      .error .atLeastOneBufferType
    else if (texelbuffer && !caps.features .FEATURE_TEXEL_BUFFER) then
      .error .texelBuffersNotSupported
    else
      match layoutMembers cat supportsGLSL3 indexbuffer vertexbuffer texelbuffer
          bufferformat bufferformat 0 [] with
      | .error e => .error e
      | .ok (offset, dataMembers) =>
        let stride := offset
        match resolveSize stride size arraylength with
        | .error e => .error e
        | .ok (size, arraylength) =>
          if texelbuffer ∧
              wrapSize (arraylength * dataMembers.length)
                > caps.limits .LIMIT_TEXEL_BUFFER_SIZE then
            .error .texelTooLarge
          else
            .ok { dataMembers := dataMembers
                  arrayLength := arraylength
                  arrayStride := stride
                  size := size
                  typeFlags := settings.typeFlags
                  usage := settings.usage
                  mapFlags := settings.mapFlags
                  mapped := false }

end Constructor

/-! ## A concrete catalogue -/

/-- Modelled from the spec: the data-format tags that `Buffer.cpp` names (the enum is
declared in a header that is not among the sources). -/
inductive DataFormat
  | DATAFORMAT_FLOAT_VEC2
  | DATAFORMAT_FLOAT_VEC3
  | DATAFORMAT_UNORM8_VEC4
  | DATAFORMAT_UNORM16_VEC2
  | DATAFORMAT_UINT16
  | DATAFORMAT_UINT32
  deriving DecidableEq, Repr

open DataFormat

/-- Modelled from the spec: metadata of the formats above (`getDataFormatInfo` is not
among the sources): component count, base type and byte size as the format names and the
testable properties give them (float-vec2 is 8 bytes, unorm8-vec4 is 4 bytes). -/
def getDataFormatInfo : DataFormat → DataFormatInfo
  | DATAFORMAT_FLOAT_VEC2 =>
    { baseType := DATA_BASETYPE_FLOAT, isMatrix := false, components := 2, size := 8 }
  | DATAFORMAT_FLOAT_VEC3 =>
    { baseType := DATA_BASETYPE_FLOAT, isMatrix := false, components := 3, size := 12 }
  | DATAFORMAT_UNORM8_VEC4 =>
    { baseType := DATA_BASETYPE_UNORM, isMatrix := false, components := 4, size := 4 }
  | DATAFORMAT_UNORM16_VEC2 =>
    { baseType := DATA_BASETYPE_UNORM, isMatrix := false, components := 2, size := 4 }
  | DATAFORMAT_UINT16 =>
    { baseType := DATA_BASETYPE_UINT, isMatrix := false, components := 1, size := 2 }
  | DATAFORMAT_UINT32 =>
    { baseType := DATA_BASETYPE_UINT, isMatrix := false, components := 1, size := 4 }

/-- The catalogue of the formats named in `Buffer.cpp`. -/
def loveCatalog : FormatCatalog DataFormat :=
  { getDataFormatInfo := getDataFormatInfo
    DATAFORMAT_UINT16 := DATAFORMAT_UINT16
    DATAFORMAT_UINT32 := DATAFORMAT_UINT32 }

/-- A capability snapshot with the given GLSL 3 support, texel-buffer support and
texel-buffer size limit. -/
def mkCapabilities (glsl3 texel : Bool) (texelLimit : Nat) : Capabilities :=
  { features := fun f =>
      match f with
      | .FEATURE_GLSL3 => glsl3
      | .FEATURE_TEXEL_BUFFER => texel
    limits := fun _ => texelLimit }



/-! ## The rules of the specification -/

section Rules

variable {F : Type} [DecidableEq F]

/-- The INDEX constraint set of section 4.1 for one declaration of the list
`bufferformat`: the format is uint16 or uint32, the list has exactly one declaration, and
the declaration has no array length. -/
def IndexRules (cat : FormatCatalog F) (bufferformat : List (DataDeclaration F))
    (decl : DataDeclaration F) : Prop :=
  (decl.format = cat.DATAFORMAT_UINT16 ∨ decl.format = cat.DATAFORMAT_UINT32) ∧
  bufferformat.length = 1 ∧
  decl.arrayLength = 0

/-- The VERTEX constraint set of section 4.1 for one declaration: no array length, not a
matrix, base type not BOOL, INT or UINT only with GLSL 3 support, non-empty name. -/
def VertexRules (cat : FormatCatalog F) (supportsGLSL3 : Bool)
    (decl : DataDeclaration F) : Prop :=
  decl.arrayLength = 0 ∧
  (cat.getDataFormatInfo decl.format).isMatrix = false ∧
  (cat.getDataFormatInfo decl.format).baseType ≠ DATA_BASETYPE_BOOL ∧
  (((cat.getDataFormatInfo decl.format).baseType = DATA_BASETYPE_INT ∨
    (cat.getDataFormatInfo decl.format).baseType = DATA_BASETYPE_UINT) →
      supportsGLSL3 = true) ∧
  decl.name ≠ ""

/-- The TEXEL constraint set of section 4.1 for one declaration of the list
`bufferformat`: same format as the first declaration, no array length, not a matrix, base
type not BOOL, component count not 3, base type not SNORM. -/
def TexelRules (cat : FormatCatalog F) (bufferformat : List (DataDeclaration F))
    (decl : DataDeclaration F) : Prop :=
  (∀ first ∈ bufferformat.head?, decl.format = first.format) ∧
  decl.arrayLength = 0 ∧
  (cat.getDataFormatInfo decl.format).isMatrix = false ∧
  (cat.getDataFormatInfo decl.format).baseType ≠ DATA_BASETYPE_BOOL ∧
  (cat.getDataFormatInfo decl.format).components ≠ 3 ∧
  (cat.getDataFormatInfo decl.format).baseType ≠ DATA_BASETYPE_SNORM

instance (cat : FormatCatalog F) (bufferformat : List (DataDeclaration F))
    (decl : DataDeclaration F) : Decidable (IndexRules cat bufferformat decl) := by
  unfold IndexRules; infer_instance

instance (cat : FormatCatalog F) (supportsGLSL3 : Bool) (decl : DataDeclaration F) :
    Decidable (VertexRules cat supportsGLSL3 decl) := by
  unfold VertexRules; infer_instance

instance (cat : FormatCatalog F) (bufferformat : List (DataDeclaration F))
    (decl : DataDeclaration F) : Decidable (TexelRules cat bufferformat decl) := by
  unfold TexelRules; infer_instance

end Rules

/-! ## Layout and size resolution as the specification states them -/

section Layout

/-- The member that the loop body builds for `decl` at the running `offset`
(lines 64, 121-122). -/
def memberAt {F : Type} (cat : FormatCatalog F) (decl : DataDeclaration F) (offset : Nat) :
    DataMember F :=
  { decl := decl
    info := cat.getDataFormatInfo decl.format
    offset := offset
    size := (cat.getDataFormatInfo decl.format).size }

/-- Tight packing as section 4.1 step 5 describes it: the members of `decls` laid out one
after the other from byte `offset`, with no padding. -/
def packedMembers {F : Type} (cat : FormatCatalog F) :
    List (DataDeclaration F) → Nat → List (DataMember F)
  | [], _ => []
  | decl :: rest, offset =>
    memberAt cat decl offset ::
      packedMembers cat rest (offset + (cat.getDataFormatInfo decl.format).size)

/-- Sum of the byte sizes of the formats of `decls`. -/
def strideOf {F : Type} (cat : FormatCatalog F) (decls : List (DataDeclaration F)) : Nat :=
  (decls.map (fun d => (cat.getDataFormatInfo d.format).size)).sum

/-- The requested byte size rounded up to the next multiple of `stride` (section 4.1
step 6), written with a ceiling division. -/
def roundUpToMultiple (size stride : Nat) : Nat :=
  stride * ((size + stride - 1) / stride)

/-- The array length that section 4.1 step 6 derives: the rounded size divided by the
stride when a byte size is requested, the requested array length otherwise. -/
def derivedArrayLength (stride size arraylength : Nat) : Nat :=
  if size ≠ 0 then roundUpToMultiple size stride / stride else arraylength

/-- The size computation of section 4.1 step 6 stays within the range of `size_t`: the
rounded size does when a byte size is requested, the product of the requested array length
and the stride does otherwise. -/
def SizeFits (stride size arraylength : Nat) : Prop :=
  if size ≠ 0 then roundUpToMultiple size stride < 2 ^ 64 else arraylength * stride < 2 ^ 64

instance (stride size arraylength : Nat) : Decidable (SizeFits stride size arraylength) := by
  unfold SizeFits; infer_instance

/-- The conditions of section 4.1 under which a construction is accepted: a size or an
array length is requested, the declaration list is non-empty, a type flag is set, TEXEL
has backend support, every declaration satisfies the rule set of every flag that is set,
and a TEXEL buffer respects the texel-buffer limit. -/
def Accepted {F : Type} [DecidableEq F] (cat : FormatCatalog F) (caps : Capabilities)
    (settings : Settings) (bufferformat : List (DataDeclaration F))
    (size arraylength : Nat) : Prop :=
  (size ≠ 0 ∨ arraylength ≠ 0) ∧
  bufferformat ≠ [] ∧
  (settings.hasFlag TYPEFLAG_INDEX = true ∨ settings.hasFlag TYPEFLAG_VERTEX = true ∨
    settings.hasFlag TYPEFLAG_TEXEL = true) ∧
  (settings.hasFlag TYPEFLAG_TEXEL = true → caps.features .FEATURE_TEXEL_BUFFER = true) ∧
  (∀ decl ∈ bufferformat,
    (settings.hasFlag TYPEFLAG_INDEX = true → IndexRules cat bufferformat decl) ∧
    (settings.hasFlag TYPEFLAG_VERTEX = true →
      VertexRules cat (caps.features .FEATURE_GLSL3) decl) ∧
    (settings.hasFlag TYPEFLAG_TEXEL = true → TexelRules cat bufferformat decl)) ∧
  (settings.hasFlag TYPEFLAG_TEXEL = true →
    derivedArrayLength (strideOf cat bufferformat) size arraylength * bufferformat.length
      ≤ caps.limits .LIMIT_TEXEL_BUFFER_SIZE)

instance {F : Type} [DecidableEq F] (cat : FormatCatalog F) (caps : Capabilities)
    (settings : Settings) (bufferformat : List (DataDeclaration F))
    (size arraylength : Nat) :
    Decidable (Accepted cat caps settings bufferformat size arraylength) := by
  unfold Accepted; infer_instance

end Layout

/-! ## Member lookup and the common formats -/

/-- The `for` loop of `Buffer::getDataMemberIndex` (lines 157-161) from index `i` on, over
the members not yet visited: the index of the first member whose declaration name is
`name`, converted to `int`, or the final `return -1` (line 163). -/
def getDataMemberIndexFrom {F : Type} (name : String) : List (DataMember F) → Nat → Int
  | [], _ => -1
  | member :: rest, i =>
    if member.decl.name = name then (i : Int) else getDataMemberIndexFrom name rest (i + 1)

/-- Embedding of `Buffer::getDataMemberIndex(name)` (lines 155-164). -/
def Buffer.getDataMemberIndex {F : Type} (b : Buffer F) (name : String) : Int :=
  getDataMemberIndexFrom name b.dataMembers 0

/-- Modelled from the spec: the built-in vertex attributes whose names
`getCommonFormatDeclaration` asks for (the enum is declared in a header that is not among
the sources). -/
inductive BuiltinVertexAttribute
  | ATTRIB_POS
  | ATTRIB_TEXCOORD
  | ATTRIB_COLOR
  deriving DecidableEq, Repr

open BuiltinVertexAttribute

/-- Modelled from the spec: the common-format tags that the `switch` of
`getCommonFormatDeclaration` names (the enum class is declared in a header that is not
among the sources), and `unrecognized raw` for a value of the enum type that is none of
them, which the `switch` leaves to the final `return {}`. -/
inductive CommonFormat
  | NONE
  | XYf
  | XYZf
  | RGBAub
  | STf_RGBAub
  | STPf_RGBAub
  | XYf_STf
  | XYf_STPf
  | XYf_STf_RGBAub
  | XYf_STus_RGBAub
  | XYf_STPf_RGBAub
  | unrecognized (raw : Nat)
  deriving DecidableEq, Repr

/-- The tag is one of the named tags other than `NONE`. -/
def CommonFormat.isLayout : CommonFormat → Bool
  | .NONE => false
  | .unrecognized _ => false
  | _ => true

/-- Embedding of `Buffer::getCommonFormatDeclaration(format)` (lines 166-225).  The
attribute names come from `getConstant`, which is not among the sources and is a
parameter; a declaration written without an array length has array length 0. -/
def getCommonFormatDeclaration (getConstant : BuiltinVertexAttribute → String) :
    CommonFormat → List (DataDeclaration DataFormat)
  | .NONE => []
  | .XYf =>
    [{ name := getConstant ATTRIB_POS, format := DATAFORMAT_FLOAT_VEC2 }]
  | .XYZf =>
    [{ name := getConstant ATTRIB_POS, format := DATAFORMAT_FLOAT_VEC3 }]
  | .RGBAub =>
    [{ name := getConstant ATTRIB_COLOR, format := DATAFORMAT_UNORM8_VEC4 }]
  | .STf_RGBAub =>
    [{ name := getConstant ATTRIB_TEXCOORD, format := DATAFORMAT_FLOAT_VEC2 },
     { name := getConstant ATTRIB_COLOR, format := DATAFORMAT_UNORM8_VEC4 }]
  | .STPf_RGBAub =>
    [{ name := getConstant ATTRIB_TEXCOORD, format := DATAFORMAT_FLOAT_VEC3 },
     { name := getConstant ATTRIB_COLOR, format := DATAFORMAT_UNORM8_VEC4 }]
  | .XYf_STf =>
    [{ name := getConstant ATTRIB_POS, format := DATAFORMAT_FLOAT_VEC2 },
     { name := getConstant ATTRIB_TEXCOORD, format := DATAFORMAT_FLOAT_VEC2 }]
  | .XYf_STPf =>
    [{ name := getConstant ATTRIB_POS, format := DATAFORMAT_FLOAT_VEC2 },
     { name := getConstant ATTRIB_TEXCOORD, format := DATAFORMAT_FLOAT_VEC3 }]
  | .XYf_STf_RGBAub =>
    [{ name := getConstant ATTRIB_POS, format := DATAFORMAT_FLOAT_VEC2 },
     { name := getConstant ATTRIB_TEXCOORD, format := DATAFORMAT_FLOAT_VEC2 },
     { name := getConstant ATTRIB_COLOR, format := DATAFORMAT_UNORM8_VEC4 }]
  | .XYf_STus_RGBAub =>
    [{ name := getConstant ATTRIB_POS, format := DATAFORMAT_FLOAT_VEC2 },
     { name := getConstant ATTRIB_TEXCOORD, format := DATAFORMAT_UNORM16_VEC2 },
     { name := getConstant ATTRIB_COLOR, format := DATAFORMAT_UNORM8_VEC4 }]
  | .XYf_STPf_RGBAub =>
    [{ name := getConstant ATTRIB_POS, format := DATAFORMAT_FLOAT_VEC2 },
     { name := getConstant ATTRIB_TEXCOORD, format := DATAFORMAT_FLOAT_VEC2 },
     { name := getConstant ATTRIB_COLOR, format := DATAFORMAT_UNORM8_VEC4 }]
  | .unrecognized _ => []

/-- Modelled from the spec: the semantic attribute names of section 4.2 ("position",
"texcoord", "color"), used where a concrete `getConstant` is needed. -/
def semanticName : BuiltinVertexAttribute → String
  | ATTRIB_POS => "position"
  | ATTRIB_TEXCOORD => "texcoord"
  | ATTRIB_COLOR => "color"

/-! ## Sample inputs -/

/-- A position and a colour attribute. -/
def samplePositionColor : List (DataDeclaration DataFormat) :=
  [{ name := "position", format := DATAFORMAT_FLOAT_VEC2 },
   { name := "color", format := DATAFORMAT_UNORM8_VEC4 }]

/-- The buffer that four elements of `samplePositionColor` make: members at offsets 0 and
8, a stride of 12 bytes, 48 bytes in all. -/
def samplePositionColorBuffer : Buffer DataFormat :=
  { dataMembers :=
      [{ decl := { name := "position", format := DATAFORMAT_FLOAT_VEC2 }
         info := getDataFormatInfo DATAFORMAT_FLOAT_VEC2, offset := 0, size := 8 },
       { decl := { name := "color", format := DATAFORMAT_UNORM8_VEC4 }
         info := getDataFormatInfo DATAFORMAT_UNORM8_VEC4, offset := 8, size := 4 }]
    arrayLength := 4
    arrayStride := 12
    size := 48
    typeFlags := TYPEFLAG_VERTEX
    usage := 0
    mapFlags := 0
    mapped := false }

/-- A 32-bit unsigned integer attribute after a position attribute. -/
def sampleIntegerAttribute : List (DataDeclaration DataFormat) :=
  [{ name := "position", format := DATAFORMAT_FLOAT_VEC2 },
   { name := "id", format := DATAFORMAT_UINT32 }]


/-- Position, texture coordinate and colour attributes of a textured, coloured vertex. -/
def sampleVertexFormat : List (DataDeclaration DataFormat) :=
  [{ name := "position", format := DATAFORMAT_FLOAT_VEC2 },
   { name := "texcoord", format := DATAFORMAT_FLOAT_VEC2 },
   { name := "color", format := DATAFORMAT_UNORM8_VEC4 }]

/-- Two 16-bit unsigned integer declarations. -/
def sampleTwoIndices : List (DataDeclaration DataFormat) :=
  [{ name := "a", format := DATAFORMAT_UINT16 },
   { name := "b", format := DATAFORMAT_UINT16 }]

/-- A 16-bit unsigned integer declaration followed by a float vector declaration. -/
def sampleMixedFormats : List (DataDeclaration DataFormat) :=
  [{ name := "a", format := DATAFORMAT_UINT16 },
   { name := "b", format := DATAFORMAT_FLOAT_VEC2 }]

/-- Two declarations of the same four-component format, usable as texel data. -/
def sampleTexelFormat : List (DataDeclaration DataFormat) :=
  [{ name := "a", format := DATAFORMAT_UNORM8_VEC4 },
   { name := "b", format := DATAFORMAT_UNORM8_VEC4 }]

/-! ## The per-declaration checks -/

section CheckLemmas

theorem checkIndex_ok_iff {F : Type} [DecidableEq F] (cat : FormatCatalog F)
    (bufferformat : List (DataDeclaration F))
    (decl : DataDeclaration F) :
    checkIndex cat bufferformat decl = .ok () ↔
      (decl.format = cat.DATAFORMAT_UINT16 ∨ decl.format = cat.DATAFORMAT_UINT32) ∧
      bufferformat.length ≤ 1 ∧ decl.arrayLength = 0 := by
  unfold checkIndex
  split_ifs with h1 h2 h3
  · simp; tauto
  · simp; omega
  · simp; omega
  · simp; refine ⟨by tauto, by omega, by omega⟩

theorem checkIndex_error_kind {F : Type} [DecidableEq F] (cat : FormatCatalog F)
    (bufferformat : List (DataDeclaration F)) (decl : DataDeclaration F) (e : BufferError)
    (h : checkIndex cat bufferformat decl = .error e) : e.kind = some .InvalidFormat := by
  unfold checkIndex at h
  split_ifs at h <;> cases h <;> rfl

theorem checkVertex_ok_iff {F : Type} (cat : FormatCatalog F) (supportsGLSL3 : Bool)
    (decl : DataDeclaration F) :
    checkVertex cat supportsGLSL3 decl = .ok () ↔ VertexRules cat supportsGLSL3 decl := by
  have hname : decl.name ≠ "" ↔ decl.name.isEmpty = false := by
    rw [Ne, ← String.isEmpty_iff]; simp
  simp only [checkVertex, VertexRules, hname]
  split_ifs with h1 h2 h3 h4 h5
  · simp; omega
  · simp [h2]
  · simp [h3]
  · simp; intro _ _ _ h; exact absurd (h h4.1) (by simp [h4.2])
  · simp [h5]
  · simp
    refine ⟨by omega, by simpa using h2, h3, ?_, by simpa using h5⟩
    intro hb
    by_contra hg
    exact h4 ⟨hb, by simpa using hg⟩

theorem checkVertex_error_kind {F : Type} (cat : FormatCatalog F) (supportsGLSL3 : Bool)
    (decl : DataDeclaration F) (e : BufferError)
    (h : checkVertex cat supportsGLSL3 decl = .error e) :
    e.kind = some .InvalidFormat ∨
      (e = .vertexIntegerRequiresGLSL3 ∧ supportsGLSL3 = false ∧
        ((cat.getDataFormatInfo decl.format).baseType = DATA_BASETYPE_INT ∨
          (cat.getDataFormatInfo decl.format).baseType = DATA_BASETYPE_UINT)) := by
  simp only [checkVertex] at h
  split_ifs at h with h1 h2 h3 h4 h5 <;> cases h
  · left; rfl
  · left; rfl
  · left; rfl
  · right; exact ⟨rfl, h4.2, h4.1⟩
  · left; rfl

theorem checkTexel_ok_iff {F : Type} [DecidableEq F] (cat : FormatCatalog F)
    (bufferformat : List (DataDeclaration F))
    (decl : DataDeclaration F) :
    checkTexel cat bufferformat decl = .ok () ↔ TexelRules cat bufferformat decl := by
  simp only [checkTexel, TexelRules]
  cases hh : bufferformat.head? with
  | none =>
    simp
    split_ifs with h1 h2 h3 h4 h5 <;> simp_all
    omega
  | some first =>
    simp
    split_ifs with h0 h1 h2 h3 h4 h5 <;> simp_all
    omega

theorem checkTexel_error_kind {F : Type} [DecidableEq F] (cat : FormatCatalog F)
    (bufferformat : List (DataDeclaration F)) (decl : DataDeclaration F) (e : BufferError)
    (h : checkTexel cat bufferformat decl = .error e) : e.kind = some .InvalidFormat := by
  simp only [checkTexel] at h
  split_ifs at h <;> cases h <;> rfl

theorem checkDeclaration_ok_iff {F : Type} [DecidableEq F] (cat : FormatCatalog F)
    (supportsGLSL3 indexbuffer vertexbuffer texelbuffer : Bool)
    (bufferformat : List (DataDeclaration F)) (decl : DataDeclaration F) :
    checkDeclaration cat supportsGLSL3 indexbuffer vertexbuffer texelbuffer bufferformat decl
        = .ok () ↔
      (indexbuffer = true → checkIndex cat bufferformat decl = .ok ()) ∧
      (vertexbuffer = true → checkVertex cat supportsGLSL3 decl = .ok ()) ∧
      (texelbuffer = true → checkTexel cat bufferformat decl = .ok ()) := by
  unfold checkDeclaration
  cases indexbuffer <;> cases vertexbuffer <;> cases texelbuffer <;>
    cases hi : checkIndex cat bufferformat decl <;>
    cases hv : checkVertex cat supportsGLSL3 decl <;>
    cases ht : checkTexel cat bufferformat decl <;> simp

theorem checkDeclaration_error {F : Type} [DecidableEq F] (cat : FormatCatalog F)
    (supportsGLSL3 indexbuffer vertexbuffer texelbuffer : Bool)
    (bufferformat : List (DataDeclaration F)) (decl : DataDeclaration F) (e : BufferError)
    (h : checkDeclaration cat supportsGLSL3 indexbuffer vertexbuffer texelbuffer bufferformat
      decl = .error e) :
    (indexbuffer = true ∧ checkIndex cat bufferformat decl = .error e) ∨
    (vertexbuffer = true ∧ checkVertex cat supportsGLSL3 decl = .error e) ∨
    (texelbuffer = true ∧ checkTexel cat bufferformat decl = .error e) := by
  unfold checkDeclaration at h
  revert h
  cases indexbuffer <;> cases vertexbuffer <;> cases texelbuffer <;>
    cases hi : checkIndex cat bufferformat decl <;>
    cases hv : checkVertex cat supportsGLSL3 decl <;>
    cases ht : checkTexel cat bufferformat decl <;> simp <;> tauto

/-- A failing declaration check is of kind InvalidFormat, except for the GLSL 3 check of
the vertex block. -/
theorem checkDeclaration_error_kind {F : Type} [DecidableEq F] (cat : FormatCatalog F)
    (supportsGLSL3 indexbuffer vertexbuffer texelbuffer : Bool)
    (bufferformat : List (DataDeclaration F)) (decl : DataDeclaration F) (e : BufferError)
    (h : checkDeclaration cat supportsGLSL3 indexbuffer vertexbuffer texelbuffer bufferformat
      decl = .error e) :
    e.kind = some .InvalidFormat ∨
      (e = .vertexIntegerRequiresGLSL3 ∧ vertexbuffer = true ∧ supportsGLSL3 = false ∧
        ((cat.getDataFormatInfo decl.format).baseType = DATA_BASETYPE_INT ∨
          (cat.getDataFormatInfo decl.format).baseType = DATA_BASETYPE_UINT)) := by
  rcases checkDeclaration_error cat supportsGLSL3 indexbuffer vertexbuffer texelbuffer
    bufferformat decl e h with ⟨_, hi⟩ | ⟨hv, hc⟩ | ⟨_, ht⟩
  · exact Or.inl (checkIndex_error_kind cat bufferformat decl e hi)
  · rcases checkVertex_error_kind cat supportsGLSL3 decl e hc with hk | ⟨he, hg, hb⟩
    · exact Or.inl hk
    · exact Or.inr ⟨he, hv, hg, hb⟩
  · exact Or.inl (checkTexel_error_kind cat bufferformat decl e ht)

end CheckLemmas

/-! ## The layout loop -/

section LayoutLemmas

/-- The loop either passes every declaration and returns the tightly packed members, or
stops with the error of some declaration of the list. -/
theorem layoutMembers_spec {F : Type} [DecidableEq F] (cat : FormatCatalog F)
    (supportsGLSL3 indexbuffer vertexbuffer texelbuffer : Bool)
    (bufferformat : List (DataDeclaration F)) (decls : List (DataDeclaration F)) :
    ∀ (offset : Nat) (acc : List (DataMember F)),
    ((∀ d ∈ decls, checkDeclaration cat supportsGLSL3 indexbuffer vertexbuffer texelbuffer
        bufferformat d = .ok ()) ∧
      layoutMembers cat supportsGLSL3 indexbuffer vertexbuffer texelbuffer bufferformat
        decls offset acc = .ok (offset + strideOf cat decls, acc ++ packedMembers cat decls offset))
    ∨ (∃ e, ∃ d ∈ decls,
      checkDeclaration cat supportsGLSL3 indexbuffer vertexbuffer texelbuffer
        bufferformat d = .error e ∧
      layoutMembers cat supportsGLSL3 indexbuffer vertexbuffer texelbuffer bufferformat
        decls offset acc = .error e) := by
  induction decls with
  | nil => intro offset acc; left; simp [layoutMembers, strideOf, packedMembers]
  | cons decl rest ih =>
    intro offset acc
    cases hc : checkDeclaration cat supportsGLSL3 indexbuffer vertexbuffer texelbuffer
        bufferformat decl with
    | error e =>
      right
      exact ⟨e, decl, by simp, hc, by simp [layoutMembers, hc]⟩
    | ok u =>
      rcases ih (offset + (cat.getDataFormatInfo decl.format).size)
          (acc ++ [memberAt cat decl offset]) with ⟨hall, hok⟩ | ⟨e, d, hd, hde, herr⟩
      · left
        refine ⟨?_, ?_⟩
        · intro d hd
          rcases List.mem_cons.mp hd with rfl | hd
          · exact hc
          · exact hall d hd
        · simp only [layoutMembers, hc]
          simp only [memberAt] at hok
          rw [hok]
          simp [strideOf, packedMembers, memberAt, Nat.add_assoc]
      · right
        refine ⟨e, d, List.mem_cons_of_mem _ hd, hde, ?_⟩
        simp only [layoutMembers, hc]
        simp only [memberAt] at herr
        exact herr

theorem packedMembers_map_decl {F : Type} (cat : FormatCatalog F)
    (decls : List (DataDeclaration F)) :
    ∀ offset : Nat, (packedMembers cat decls offset).map (·.decl) = decls := by
  induction decls with
  | nil => intro offset; rfl
  | cons decl rest ih => intro offset; simp [packedMembers, memberAt, ih]

theorem packedMembers_length {F : Type} (cat : FormatCatalog F)
    (decls : List (DataDeclaration F)) (offset : Nat) :
    (packedMembers cat decls offset).length = decls.length := by
  have h := congrArg List.length (packedMembers_map_decl cat decls offset)
  simpa using h

theorem packedMembers_size {F : Type} (cat : FormatCatalog F)
    (decls : List (DataDeclaration F)) :
    ∀ offset : Nat, ∀ m ∈ packedMembers cat decls offset,
      m.info = cat.getDataFormatInfo m.decl.format ∧
      m.size = (cat.getDataFormatInfo m.decl.format).size := by
  induction decls with
  | nil => intro offset m hm; simp [packedMembers] at hm
  | cons decl rest ih =>
    intro offset m hm
    simp only [packedMembers, List.mem_cons] at hm
    rcases hm with rfl | hm
    · simp [memberAt]
    · exact ih _ m hm

theorem packedMembers_sum_size {F : Type} (cat : FormatCatalog F)
    (decls : List (DataDeclaration F)) :
    ∀ offset : Nat,
      ((packedMembers cat decls offset).map (·.size)).sum = strideOf cat decls := by
  induction decls with
  | nil => intro offset; rfl
  | cons decl rest ih =>
    intro offset
    simp only [packedMembers, List.map_cons, List.sum_cons, ih]
    simp [strideOf, memberAt]

theorem packedMembers_offset {F : Type} (cat : FormatCatalog F)
    (decls : List (DataDeclaration F)) :
    ∀ (offset i : Nat) (hi : i < (packedMembers cat decls offset).length),
      ((packedMembers cat decls offset)[i]).offset =
        offset + (((packedMembers cat decls offset).take i).map (·.size)).sum := by
  induction decls with
  | nil => intro offset i hi; simp [packedMembers] at hi
  | cons decl rest ih =>
    intro offset i hi
    cases i with
    | zero => simp [packedMembers, memberAt]
    | succ j =>
      simp only [packedMembers, List.length_cons] at hi
      simp only [packedMembers, List.getElem_cons_succ, List.take_succ_cons, List.map_cons,
        List.sum_cons]
      rw [ih _ j (by omega)]
      simp [memberAt, Nat.add_assoc]

end LayoutLemmas

/-! ## Characterisation of a successful construction -/

section Success

/-- The constructor succeeds with `b` exactly when every top-level check and every
declaration check passes, the size resolves, the texel limit is respected, and `b` is the
tightly packed layout with the resolved size and array length. -/
theorem construct_ok_iff {F : Type} [DecidableEq F] (cat : FormatCatalog F)
    (caps : Capabilities) (settings : Settings) (bufferformat : List (DataDeclaration F))
    (size arraylength : Nat) (b : Buffer F) :
    Buffer.construct cat caps settings bufferformat size arraylength = .ok b ↔
      ¬(size = 0 ∧ arraylength = 0) ∧ bufferformat ≠ [] ∧
      (settings.hasFlag TYPEFLAG_INDEX = true ∨ settings.hasFlag TYPEFLAG_VERTEX = true ∨
        settings.hasFlag TYPEFLAG_TEXEL = true) ∧
      (settings.hasFlag TYPEFLAG_TEXEL = true →
        caps.features .FEATURE_TEXEL_BUFFER = true) ∧
      (∀ d ∈ bufferformat,
        checkDeclaration cat (caps.features .FEATURE_GLSL3)
          (settings.hasFlag TYPEFLAG_INDEX) (settings.hasFlag TYPEFLAG_VERTEX)
          (settings.hasFlag TYPEFLAG_TEXEL) bufferformat d = .ok ()) ∧
      ∃ size1 arraylength1,
        resolveSize (strideOf cat bufferformat) size arraylength = .ok (size1, arraylength1) ∧
        (settings.hasFlag TYPEFLAG_TEXEL = true →
          wrapSize (arraylength1 * bufferformat.length)
            ≤ caps.limits .LIMIT_TEXEL_BUFFER_SIZE) ∧
        b = { dataMembers := packedMembers cat bufferformat 0
              arrayLength := arraylength1
              arrayStride := strideOf cat bufferformat
              size := size1
              typeFlags := settings.typeFlags
              usage := settings.usage
              mapFlags := settings.mapFlags
              mapped := false } := by
  unfold Buffer.construct
  by_cases h1 : size = 0 ∧ arraylength = 0
  · simp [h1]
  rw [if_neg h1]
  by_cases h2 : bufferformat = []
  · simp [h2]
  have h2len : ¬ bufferformat.length = 0 := by simpa using h2
  rw [if_neg h2len]
  by_cases h3 : (!settings.hasFlag TYPEFLAG_INDEX && !settings.hasFlag TYPEFLAG_VERTEX &&
      !settings.hasFlag TYPEFLAG_TEXEL) = true
  · rw [if_pos h3]
    have : ¬ (settings.hasFlag TYPEFLAG_INDEX = true ∨
        settings.hasFlag TYPEFLAG_VERTEX = true ∨
        settings.hasFlag TYPEFLAG_TEXEL = true) := by
      simp only [Bool.and_eq_true, Bool.not_eq_true'] at h3
      simp [h3.1.1, h3.1.2, h3.2]
    simp [this]
  rw [if_neg h3]
  have h3flag : settings.hasFlag TYPEFLAG_INDEX = true ∨
      settings.hasFlag TYPEFLAG_VERTEX = true ∨
      settings.hasFlag TYPEFLAG_TEXEL = true := by
    revert h3
    cases settings.hasFlag TYPEFLAG_INDEX <;> cases settings.hasFlag TYPEFLAG_VERTEX <;>
      cases settings.hasFlag TYPEFLAG_TEXEL <;> simp
  by_cases h4 : (settings.hasFlag TYPEFLAG_TEXEL && !caps.features .FEATURE_TEXEL_BUFFER) = true
  · rw [if_pos h4]
    simp only [Bool.and_eq_true, Bool.not_eq_true'] at h4
    simp [h4.1, h4.2]
  rw [if_neg h4]
  have h4imp : settings.hasFlag TYPEFLAG_TEXEL = true →
      caps.features .FEATURE_TEXEL_BUFFER = true := by
    revert h4
    cases settings.hasFlag TYPEFLAG_TEXEL <;> cases caps.features .FEATURE_TEXEL_BUFFER <;> simp
  rcases layoutMembers_spec cat (caps.features .FEATURE_GLSL3)
      (settings.hasFlag TYPEFLAG_INDEX) (settings.hasFlag TYPEFLAG_VERTEX)
      (settings.hasFlag TYPEFLAG_TEXEL) bufferformat bufferformat 0 []
    with ⟨hall, hok⟩ | ⟨e, d, hd, hde, herr⟩
  · rw [hok]
    simp only [Nat.zero_add, List.nil_append]
    cases hr : resolveSize (strideOf cat bufferformat) size arraylength with
    | error e => simp
    | ok p =>
      obtain ⟨size1, arraylength1⟩ := p
      simp only [packedMembers_length]
      by_cases h5 : settings.hasFlag TYPEFLAG_TEXEL = true ∧
          wrapSize (arraylength1 * bufferformat.length)
            > caps.limits .LIMIT_TEXEL_BUFFER_SIZE
      · rw [if_pos h5]
        constructor
        · intro h; cases h
        · rintro ⟨_, _, _, _, _, s1, a1, hsa, hlim, _⟩
          cases hsa
          have := hlim h5.1
          omega
      · rw [if_neg h5]
        constructor
        · intro h
          cases h
          refine ⟨h1, h2, h3flag, h4imp, hall, size1, arraylength1, rfl, ?_, rfl⟩
          intro ht
          by_contra hlim
          exact h5 ⟨ht, by omega⟩
        · rintro ⟨_, _, _, _, _, s1, a1, hsa, _, hb⟩
          cases hsa
          rw [hb]
  · rw [herr]
    constructor
    · intro h; cases h
    · rintro ⟨_, _, _, _, hall, _⟩
      rw [hall d hd] at hde
      cases hde

end Success

/-! ## Size resolution -/

section SizeResolution

/-- Rounding a size up by the remainder (lines 133-135) gives the least multiple of
`stride` that is not below it. -/
theorem roundUp_properties (stride size : Nat) (h : stride ≠ 0) :
    stride ∣ (if size % stride > 0 then size + (stride - size % stride) else size) ∧
    size ≤ (if size % stride > 0 then size + (stride - size % stride) else size) ∧
    (if size % stride > 0 then size + (stride - size % stride) else size) - size < stride ∧
    (size % stride = 0 →
      (if size % stride > 0 then size + (stride - size % stride) else size) = size) := by
  have hpos := Nat.pos_of_ne_zero h
  have h1 := Nat.div_add_mod size stride
  have h2 := Nat.mod_lt size hpos
  split_ifs with hr
  · refine ⟨⟨size / stride + 1, ?_⟩, by omega, by omega, by omega⟩
    rw [Nat.mul_add, Nat.mul_one]
    omega
  · refine ⟨?_, le_refl _, by omega, fun _ => rfl⟩
    exact Nat.dvd_of_mod_eq_zero (by omega)

/-- The array length that the code derives from a requested size is the ceiling
division of the specification. -/
theorem roundUp_div_eq (stride size : Nat) (h : stride ≠ 0) :
    (if size % stride > 0 then size + (stride - size % stride) else size) / stride =
      roundUpToMultiple size stride / stride := by
  have hpos := Nat.pos_of_ne_zero h
  unfold roundUpToMultiple
  rw [Nat.mul_div_cancel_left _ hpos]
  have h1 := Nat.div_add_mod size stride
  have h2 := Nat.mod_lt size hpos
  split_ifs with hr
  · have e1 : size + (stride - size % stride) = stride * (size / stride + 1) := by
      rw [Nat.mul_add, Nat.mul_one]; omega
    have e2 : size + stride - 1 = (size % stride - 1) + stride * (size / stride + 1) := by
      rw [Nat.mul_add, Nat.mul_one]; omega
    have e3 : (size % stride - 1) / stride = 0 := Nat.div_eq_of_lt (by omega)
    rw [e1, Nat.mul_div_cancel_left _ hpos, e2, Nat.add_mul_div_left _ _ hpos, e3]
    omega
  · have e2 : size + stride - 1 = (stride - 1) + stride * (size / stride) := by omega
    have e3 : (stride - 1) / stride = 0 := Nat.div_eq_of_lt (by omega)
    rw [e2, Nat.add_mul_div_left _ _ hpos, e3]
    omega

/-- The size rounded up by the remainder is the rounded size of the specification. -/
theorem roundUp_eq (stride size : Nat) (h : stride ≠ 0) :
    (if size % stride > 0 then size + (stride - size % stride) else size) =
      roundUpToMultiple size stride := by
  have hd := (roundUp_properties stride size h).1
  have hq := roundUp_div_eq stride size h
  have hr : stride ∣ roundUpToMultiple size stride := ⟨_, rfl⟩
  rw [← Nat.mul_div_cancel' hd, ← Nat.mul_div_cancel' hr, hq]

/-- A value below 2^64 is not changed by `wrapSize`, and no value is increased by it. -/
theorem wrapSize_of_lt (n : Nat) (h : n < 2 ^ 64) : wrapSize n = n := by
  unfold wrapSize
  exact Nat.mod_eq_of_lt h

theorem wrapSize_le (n : Nat) : wrapSize n ≤ n := by
  unfold wrapSize
  exact Nat.mod_le _ _

/-- With a requested size, `resolveSize` succeeds only for a nonzero stride and returns the
rounded size, reduced to `size_t`, and its quotient by the stride. -/
theorem resolveSize_ok_of_size (stride size arraylength size1 arraylength1 : Nat)
    (hsize : size ≠ 0)
    (h : resolveSize stride size arraylength = .ok (size1, arraylength1)) :
    stride ≠ 0 ∧
    size1 = (if size % stride > 0 then wrapSize (size + (stride - size % stride))
      else size) ∧
    arraylength1 = size1 / stride := by
  unfold resolveSize at h
  rw [if_pos hsize] at h
  split_ifs at h with h2
  simp only [Except.ok.injEq, Prod.mk.injEq] at h
  obtain ⟨hs, ha⟩ := h
  exact ⟨h2, hs.symm, by rw [← ha, ← hs]⟩

/-- Without a requested size `resolveSize` returns the requested array length and its
product with the stride, reduced to `size_t`. -/
theorem resolveSize_zero (stride arraylength : Nat) :
    resolveSize stride 0 arraylength = .ok (wrapSize (arraylength * stride), arraylength) := by
  simp [resolveSize]

/-- With a nonzero stride `resolveSize` succeeds, and its array length is at most the
derived array length of the specification. -/
theorem resolveSize_of_stride_pos (stride size arraylength : Nat) (h : stride ≠ 0) :
    ∃ size1 arraylength1, resolveSize stride size arraylength = .ok (size1, arraylength1) ∧
      arraylength1 ≤ derivedArrayLength stride size arraylength := by
  unfold resolveSize derivedArrayLength
  by_cases hsize : size ≠ 0
  · rw [if_pos hsize, if_neg h, if_pos hsize]
    refine ⟨_, _, rfl, ?_⟩
    rw [← roundUp_div_eq stride size h]
    apply Nat.div_le_div_right
    split_ifs
    · exact wrapSize_le _
    · exact le_refl _
  · rw [if_neg hsize, if_neg hsize]
    exact ⟨_, _, rfl, le_refl _⟩

/-- When the size computation stays within `size_t`, `resolveSize` returns what section 4.1
step 6 describes: the rounded size and the derived array length for a requested size, the
product and the requested array length otherwise. -/
theorem resolveSize_of_fits (stride size arraylength size1 arraylength1 : Nat)
    (hfits : SizeFits stride size arraylength)
    (h : resolveSize stride size arraylength = .ok (size1, arraylength1)) :
    size1 = (if size ≠ 0 then roundUpToMultiple size stride else arraylength * stride) ∧
    arraylength1 = derivedArrayLength stride size arraylength ∧
    (size ≠ 0 → stride ≠ 0) := by
  unfold SizeFits at hfits
  unfold derivedArrayLength
  by_cases hsize : size ≠ 0
  · rw [if_pos hsize] at hfits ⊢
    obtain ⟨hstride, hs, ha⟩ := resolveSize_ok_of_size _ _ _ _ _ hsize h
    have hround := roundUp_eq stride size hstride
    have hs2 : size1 = roundUpToMultiple size stride := by
      rw [hs, ← hround]
      split_ifs with hr
      · rw [if_pos hr] at hround
        exact wrapSize_of_lt _ (by rw [hround]; exact hfits)
      · rfl
    rw [if_pos hsize]
    exact ⟨hs2, by rw [ha, hs2], fun _ => hstride⟩
  · rw [if_neg hsize] at hfits ⊢
    have h0 : size = 0 := by omega
    subst h0
    rw [resolveSize_zero] at h
    simp only [Except.ok.injEq, Prod.mk.injEq] at h
    rw [if_neg hsize]
    exact ⟨by rw [← h.1, wrapSize_of_lt _ hfits], h.2.symm, fun hc => absurd rfl hc⟩

/-- When the size computation stays within `size_t`, whatever `resolveSize` returns is a
whole number of elements. -/
theorem resolveSize_ok_size (stride size arraylength size1 arraylength1 : Nat)
    (hfits : SizeFits stride size arraylength)
    (h : resolveSize stride size arraylength = .ok (size1, arraylength1)) :
    size1 = stride * arraylength1 := by
  obtain ⟨hs, ha, hstride⟩ := resolveSize_of_fits _ _ _ _ _ hfits h
  unfold derivedArrayLength at ha
  by_cases hsize : size ≠ 0
  · rw [if_pos hsize] at hs ha
    have hr : stride ∣ roundUpToMultiple size stride := ⟨_, rfl⟩
    rw [hs, ha, Nat.mul_div_cancel' hr]
  · rw [if_neg hsize] at hs ha
    rw [hs, ha, Nat.mul_comm]

/-- When a requested size is rounded without leaving `size_t`, the array length that
`resolveSize` returns is the derived array length of the specification. -/
theorem resolveSize_arraylength (stride size arraylength size1 arraylength1 : Nat)
    (hround : size ≠ 0 → roundUpToMultiple size stride < 2 ^ 64)
    (h : resolveSize stride size arraylength = .ok (size1, arraylength1)) :
    arraylength1 = derivedArrayLength stride size arraylength := by
  by_cases hsize : size ≠ 0
  · have hfits : SizeFits stride size arraylength := by
      unfold SizeFits
      rw [if_pos hsize]
      exact hround hsize
    exact (resolveSize_of_fits _ _ _ _ _ hfits h).2.1
  · have h0 : size = 0 := by omega
    subst h0
    rw [resolveSize_zero] at h
    simp only [Except.ok.injEq, Prod.mk.injEq] at h
    unfold derivedArrayLength
    rw [if_neg hsize]
    exact h.2.symm

end SizeResolution

/-! ## Failing constructions -/

section Failure

/-- Once the top-level checks pass, an error of the layout loop is the error of the
constructor. -/
theorem construct_loop_error {F : Type} [DecidableEq F] (cat : FormatCatalog F)
    (caps : Capabilities) (settings : Settings) (bufferformat : List (DataDeclaration F))
    (size arraylength : Nat) (e : BufferError)
    (h1 : ¬(size = 0 ∧ arraylength = 0)) (h2 : bufferformat ≠ [])
    (h3 : settings.hasFlag TYPEFLAG_INDEX = true ∨ settings.hasFlag TYPEFLAG_VERTEX = true ∨
      settings.hasFlag TYPEFLAG_TEXEL = true)
    (h4 : settings.hasFlag TYPEFLAG_TEXEL = true → caps.features .FEATURE_TEXEL_BUFFER = true)
    (hloop : layoutMembers cat (caps.features .FEATURE_GLSL3)
      (settings.hasFlag TYPEFLAG_INDEX) (settings.hasFlag TYPEFLAG_VERTEX)
      (settings.hasFlag TYPEFLAG_TEXEL) bufferformat bufferformat 0 [] = .error e) :
    Buffer.construct cat caps settings bufferformat size arraylength = .error e := by
  unfold Buffer.construct
  have h2len : ¬ bufferformat.length = 0 := by simpa using h2
  have h3b : ¬ (!settings.hasFlag TYPEFLAG_INDEX && !settings.hasFlag TYPEFLAG_VERTEX &&
      !settings.hasFlag TYPEFLAG_TEXEL) = true := by
    revert h3
    cases settings.hasFlag TYPEFLAG_INDEX <;> cases settings.hasFlag TYPEFLAG_VERTEX <;>
      cases settings.hasFlag TYPEFLAG_TEXEL <;> simp
  have h4b : ¬ (settings.hasFlag TYPEFLAG_TEXEL && !caps.features .FEATURE_TEXEL_BUFFER)
      = true := by
    revert h4
    cases settings.hasFlag TYPEFLAG_TEXEL <;> cases caps.features .FEATURE_TEXEL_BUFFER <;> simp
  rw [if_neg h1, if_neg h2len, if_neg h3b, if_neg h4b, hloop]

/-- The first top-level check (lines 40-41). -/
theorem construct_no_size {F : Type} [DecidableEq F] (cat : FormatCatalog F)
    (caps : Capabilities) (settings : Settings) (bufferformat : List (DataDeclaration F))
    (size arraylength : Nat) (h : size = 0 ∧ arraylength = 0) :
    Buffer.construct cat caps settings bufferformat size arraylength =
      .error .sizeOrArrayLengthMustBeSpecified := by
  unfold Buffer.construct
  rw [if_pos h]

/-- The texel-support check (lines 56-57), reached when the checks before it pass. -/
theorem construct_texel_unsupported {F : Type} [DecidableEq F] (cat : FormatCatalog F)
    (caps : Capabilities) (settings : Settings) (bufferformat : List (DataDeclaration F))
    (size arraylength : Nat)
    (h1 : ¬(size = 0 ∧ arraylength = 0)) (h2 : bufferformat ≠ [])
    (ht : settings.hasFlag TYPEFLAG_TEXEL = true)
    (hs : caps.features .FEATURE_TEXEL_BUFFER = false) :
    Buffer.construct cat caps settings bufferformat size arraylength =
      .error .texelBuffersNotSupported := by
  unfold Buffer.construct
  have h2len : ¬ bufferformat.length = 0 := by simpa using h2
  rw [if_neg h1, if_neg h2len]
  simp [ht, hs]

/-- An error of the index block is the error of the whole declaration check, since the
index block runs first. -/
theorem checkDeclaration_index_error {F : Type} [DecidableEq F] (cat : FormatCatalog F)
    (supportsGLSL3 vertexbuffer texelbuffer : Bool)
    (bufferformat : List (DataDeclaration F)) (decl : DataDeclaration F) (e : BufferError)
    (h : checkIndex cat bufferformat decl = .error e) :
    checkDeclaration cat supportsGLSL3 true vertexbuffer texelbuffer bufferformat decl
      = .error e := by
  unfold checkDeclaration
  rw [if_pos rfl, h]

/-- The index block rejects every declaration of a list with more than one entry. -/
theorem checkIndex_error_of_many {F : Type} [DecidableEq F] (cat : FormatCatalog F)
    (bufferformat : List (DataDeclaration F)) (decl : DataDeclaration F)
    (h : 1 < bufferformat.length) :
    ∃ e, checkIndex cat bufferformat decl = .error e ∧ e.kind = some .InvalidFormat := by
  cases hc : checkIndex cat bufferformat decl with
  | error e => exact ⟨e, rfl, checkIndex_error_kind cat bufferformat decl e hc⟩
  | ok u =>
    have := ((checkIndex_ok_iff cat bufferformat decl).mp hc).2.1
    omega

/-- The texel block rejects a declaration whose format differs from the first one. -/
theorem checkTexel_error_of_differs {F : Type} [DecidableEq F] (cat : FormatCatalog F)
    (bufferformat : List (DataDeclaration F)) (decl first : DataDeclaration F)
    (hfirst : bufferformat.head? = some first) (hne : decl.format ≠ first.format) :
    checkTexel cat bufferformat decl ≠ .ok () := by
  intro hc
  exact hne (((checkTexel_ok_iff cat bufferformat decl).mp hc).1 first hfirst)

/-- A non-empty list of formats of positive size has a positive stride. -/
theorem strideOf_pos {F : Type} (cat : FormatCatalog F)
    (bufferformat : List (DataDeclaration F)) (hne : bufferformat ≠ [])
    (hpos : ∀ f, 0 < (cat.getDataFormatInfo f).size) : 0 < strideOf cat bufferformat := by
  cases bufferformat with
  | nil => exact absurd rfl hne
  | cons d rest =>
    have := hpos d.format
    simp only [strideOf, List.map_cons, List.sum_cons]
    omega

end Failure

/-! ## Invariants of a constructed buffer -/

section Claims

/-- C1 does not hold as stated: for three vertex attributes (stride 20) and a requested
size of 2^64 - 1 bytes the addition of line 135 wraps around, and the constructor succeeds
with size 4, stride 20 and array length 0. -/
theorem C1_counterexample :
    (Buffer.construct loveCatalog (mkCapabilities false false 0)
        { typeFlags := TYPEFLAG_VERTEX } sampleVertexFormat 18446744073709551615 0).toOption.map
      (fun b => (b.size, b.arrayStride, b.arrayLength)) = some (4, 20, 0) ∧
    (4 : Nat) ≠ 20 * 0 :=
  ⟨by decide, by decide⟩

/-- C1, amended: whenever the constructor succeeds, `arrayStride` is the sum of the byte
sizes of all its data members; and `size == arrayStride * arrayLength` holds provided the
size computation stays within `size_t` (the rounded size is below 2^64 when a size is
requested, the requested array length times the stride is below 2^64 otherwise). -/
theorem C1_size_is_stride_times_length {F : Type} [DecidableEq F] (cat : FormatCatalog F)
    (caps : Capabilities) (settings : Settings) (bufferformat : List (DataDeclaration F))
    (size arraylength : Nat) (b : Buffer F)
    (h : Buffer.construct cat caps settings bufferformat size arraylength = .ok b) :
    b.arrayStride = (b.dataMembers.map (·.size)).sum ∧
    (SizeFits b.arrayStride size arraylength → b.size = b.arrayStride * b.arrayLength) := by
  obtain ⟨_, _, _, _, _, size1, arraylength1, hres, _, hb⟩ :=
    (construct_ok_iff cat caps settings bufferformat size arraylength b).mp h
  subst hb
  exact ⟨(packedMembers_sum_size cat bufferformat 0).symm,
    fun hfits => resolveSize_ok_size _ _ _ _ _ hfits hres⟩

/-- Witness of C1 as amended: three vertex attributes, four elements requested. -/
theorem C1_size_is_stride_times_length_witness :
    ∃ b, Buffer.construct loveCatalog (mkCapabilities false false 0)
        { typeFlags := TYPEFLAG_VERTEX } sampleVertexFormat 0 4 = .ok b ∧
      b.size = 80 ∧ b.arrayStride = 20 ∧ b.arrayLength = 4 ∧
      SizeFits b.arrayStride 0 4 ∧
      b.arrayStride = (b.dataMembers.map (·.size)).sum ∧
      (SizeFits b.arrayStride 0 4 → b.size = b.arrayStride * b.arrayLength) :=
  ⟨_, rfl, rfl, rfl, rfl, by decide,
    C1_size_is_stride_times_length loveCatalog (mkCapabilities false false 0)
      { typeFlags := TYPEFLAG_VERTEX } sampleVertexFormat 0 4 _ rfl⟩

/-- C2: whenever the constructor succeeds, the members are the declarations in input
order (member `i` wraps declaration `i`), each member carries the metadata and the byte
size of its format, member 0 is at offset 0, member `i` is at the sum of the sizes of the
members before it, and the stride is the final cursor: the sum of all member sizes. -/
theorem C2_members_tightly_packed {F : Type} [DecidableEq F] (cat : FormatCatalog F)
    (caps : Capabilities) (settings : Settings) (bufferformat : List (DataDeclaration F))
    (size arraylength : Nat) (b : Buffer F)
    (h : Buffer.construct cat caps settings bufferformat size arraylength = .ok b) :
    b.dataMembers.length = bufferformat.length ∧
    b.dataMembers.map (·.decl) = bufferformat ∧
    (∀ m ∈ b.dataMembers, m.info = cat.getDataFormatInfo m.decl.format ∧
      m.size = (cat.getDataFormatInfo m.decl.format).size) ∧
    (∀ m, b.dataMembers.head? = some m → m.offset = 0) ∧
    (∀ (i : Nat) (hi : i < b.dataMembers.length),
      (b.dataMembers[i]).offset = ((b.dataMembers.take i).map (·.size)).sum) ∧
    b.arrayStride = (b.dataMembers.map (·.size)).sum := by
  obtain ⟨_, _, _, _, _, size1, arraylength1, _, _, hb⟩ :=
    (construct_ok_iff cat caps settings bufferformat size arraylength b).mp h
  subst hb
  have hoff : ∀ (i : Nat) (hi : i < (packedMembers cat bufferformat 0).length),
      ((packedMembers cat bufferformat 0)[i]).offset =
        (((packedMembers cat bufferformat 0).take i).map (·.size)).sum := by
    intro i hi
    rw [packedMembers_offset cat bufferformat 0 i hi, Nat.zero_add]
  refine ⟨packedMembers_length cat bufferformat 0, packedMembers_map_decl cat bufferformat 0,
    packedMembers_size cat bufferformat 0, ?_, hoff,
    (packedMembers_sum_size cat bufferformat 0).symm⟩
  intro m hm
  simp only at hm
  cases hp : packedMembers cat bufferformat 0 with
  | nil => rw [hp] at hm; simp at hm
  | cons m0 rest =>
    have h0 := hoff 0 (by rw [hp]; simp)
    simp only [hp, List.head?_cons, Option.some.injEq] at hm h0
    subst hm
    simpa using h0

/-- Witness of C2: the three vertex attributes are laid out at offsets 0, 8 and 16. -/
theorem C2_members_tightly_packed_witness :
    ∃ b, Buffer.construct loveCatalog (mkCapabilities false false 0)
        { typeFlags := TYPEFLAG_VERTEX } sampleVertexFormat 0 4 = .ok b ∧
      b.dataMembers.map (·.offset) = [0, 8, 16] ∧
      (b.dataMembers.length = sampleVertexFormat.length ∧
      b.dataMembers.map (·.decl) = sampleVertexFormat ∧
      (∀ m ∈ b.dataMembers, m.info = loveCatalog.getDataFormatInfo m.decl.format ∧
        m.size = (loveCatalog.getDataFormatInfo m.decl.format).size) ∧
      (∀ m, b.dataMembers.head? = some m → m.offset = 0) ∧
      (∀ (i : Nat) (hi : i < b.dataMembers.length),
        (b.dataMembers[i]).offset = ((b.dataMembers.take i).map (·.size)).sum) ∧
      b.arrayStride = (b.dataMembers.map (·.size)).sum) :=
  ⟨_, rfl, rfl,
    C2_members_tightly_packed loveCatalog (mkCapabilities false false 0)
      { typeFlags := TYPEFLAG_VERTEX } sampleVertexFormat 0 4 _ rfl⟩

/-- C3 does not hold as stated: for three vertex attributes (stride 20) and a requested
size `S` of 2^64 - 1 bytes the rounding of line 135 wraps around; the constructor succeeds
with size 4, which is below `S` and not a multiple of the stride. -/
theorem C3_counterexample :
    (Buffer.construct loveCatalog (mkCapabilities false false 0)
        { typeFlags := TYPEFLAG_VERTEX } sampleVertexFormat 18446744073709551615 0).toOption.map
      (fun b => (b.size, b.arrayStride, b.arrayLength)) = some (4, 20, 0) ∧
    ¬ (18446744073709551615 ≤ 4) ∧ ¬ (20 ∣ 4) :=
  ⟨by decide, by decide, by decide⟩

/-- C3, amended: when the constructor succeeds for a requested size `S > 0` and a
requested array length 0, and `S` rounded up to a multiple of the stride is below 2^64,
the stride divides the resulting size, the size is at least `S` and exceeds it by less than
one stride (so it is `S` itself when `S` is a multiple of the stride), and the array length
is the size divided by the stride. -/
theorem C3_requested_size_rounded_up {F : Type} [DecidableEq F] (cat : FormatCatalog F)
    (caps : Capabilities) (settings : Settings) (bufferformat : List (DataDeclaration F))
    (S : Nat) (b : Buffer F) (hS : 0 < S)
    (h : Buffer.construct cat caps settings bufferformat S 0 = .ok b)
    (hfits : roundUpToMultiple S b.arrayStride < 2 ^ 64) :
    b.arrayStride ∣ b.size ∧ S ≤ b.size ∧ b.size - S < b.arrayStride ∧
    (S % b.arrayStride = 0 → b.size = S) ∧
    b.arrayLength = b.size / b.arrayStride := by
  obtain ⟨_, _, _, _, _, size1, arraylength1, hres, _, hb⟩ :=
    (construct_ok_iff cat caps settings bufferformat S 0 b).mp h
  subst hb
  have hS0 : S ≠ 0 := Nat.pos_iff_ne_zero.mp hS
  have hsf : SizeFits (strideOf cat bufferformat) S 0 := by
    unfold SizeFits
    rw [if_pos hS0]
    exact hfits
  obtain ⟨hstride, _, hlen⟩ := resolveSize_ok_of_size _ _ _ _ _ hS0 hres
  obtain ⟨hsize, _, _⟩ := resolveSize_of_fits _ _ _ _ _ hsf hres
  rw [if_pos hS0, ← roundUp_eq _ _ hstride] at hsize
  obtain ⟨hd, hle, hlt, hmul⟩ := roundUp_properties (strideOf cat bufferformat) S hstride
  rw [← hsize] at hd hle hlt hmul
  exact ⟨hd, hle, hlt, hmul, hlen⟩

/-- Witness of C3 as amended: 81 requested bytes of a 20-byte element become 100 bytes, 5
elements. -/
theorem C3_requested_size_rounded_up_witness :
    ∃ b, Buffer.construct loveCatalog (mkCapabilities false false 0)
        { typeFlags := TYPEFLAG_VERTEX } sampleVertexFormat 81 0 = .ok b ∧
      b.size = 100 ∧ b.arrayLength = 5 ∧
      (b.arrayStride ∣ b.size ∧ 81 ≤ b.size ∧ b.size - 81 < b.arrayStride ∧
      (81 % b.arrayStride = 0 → b.size = 81) ∧
      b.arrayLength = b.size / b.arrayStride) :=
  ⟨_, rfl, rfl, rfl,
    C3_requested_size_rounded_up loveCatalog (mkCapabilities false false 0)
      { typeFlags := TYPEFLAG_VERTEX } sampleVertexFormat 81 _ (by decide) rfl (by decide)⟩

/-- C5 does not hold as stated: for a texel buffer of two members, a requested array
length of 2^63 and a limit of 100 values, the product of line 147 wraps around to 0; the
constructor succeeds although the derived array length times the number of declarations
exceeds the limit. -/
theorem C5_counterexample :
    (Buffer.construct loveCatalog (mkCapabilities false true 100)
        { typeFlags := TYPEFLAG_TEXEL } sampleTexelFormat 0 9223372036854775808).toOption.map
      (fun b => (b.arrayLength, b.dataMembers.length)) = some (9223372036854775808, 2) ∧
    ¬ Accepted loveCatalog (mkCapabilities false true 100) { typeFlags := TYPEFLAG_TEXEL }
      sampleTexelFormat 0 9223372036854775808 :=
  ⟨by decide, by decide⟩

/-- C5, amended: for a catalogue whose formats all have a positive byte size, and provided
that for a TEXEL buffer the rounded size and the derived array length times the number of
declarations are below 2^64, the constructor succeeds exactly when a size or an array
length is requested, the declaration list is non-empty, a type flag is set, TEXEL has
backend support, every declaration satisfies the INDEX rules if INDEX is set, the VERTEX
rules if VERTEX is set and the TEXEL rules if TEXEL is set, and for TEXEL the derived array
length times the number of declarations does not exceed the texel-buffer limit.  Without
the proviso the conditions are still sufficient for success. -/
theorem C5_succeeds_iff_accepted {F : Type} [DecidableEq F] (cat : FormatCatalog F)
    (caps : Capabilities) (settings : Settings) (bufferformat : List (DataDeclaration F))
    (size arraylength : Nat) (hpos : ∀ f, 0 < (cat.getDataFormatInfo f).size) :
    (Accepted cat caps settings bufferformat size arraylength →
      ∃ b, Buffer.construct cat caps settings bufferformat size arraylength = .ok b) ∧
    ((settings.hasFlag TYPEFLAG_TEXEL = true →
        (size ≠ 0 → roundUpToMultiple size (strideOf cat bufferformat) < 2 ^ 64) ∧
        derivedArrayLength (strideOf cat bufferformat) size arraylength *
          bufferformat.length < 2 ^ 64) →
      ((∃ b, Buffer.construct cat caps settings bufferformat size arraylength = .ok b) ↔
        Accepted cat caps settings bufferformat size arraylength)) := by
  have hsuff : Accepted cat caps settings bufferformat size arraylength →
      ∃ b, Buffer.construct cat caps settings bufferformat size arraylength = .ok b := by
    rintro ⟨h1, h2, h3, h4, hall, hlim⟩
    have hstride : strideOf cat bufferformat ≠ 0 :=
      Nat.pos_iff_ne_zero.mp (strideOf_pos cat bufferformat h2 hpos)
    obtain ⟨size2, arraylength2, hres2, hle⟩ :=
      resolveSize_of_stride_pos (strideOf cat bufferformat) size arraylength hstride
    refine ⟨_, (construct_ok_iff cat caps settings bufferformat size arraylength _).mpr
      ⟨by omega, h2, h3, h4, ?_, size2, arraylength2, hres2, ?_, rfl⟩⟩
    · intro d hd
      obtain ⟨hi, hv, ht⟩ := hall d hd
      rw [checkDeclaration_ok_iff]
      refine ⟨fun hf => ?_, fun hf => (checkVertex_ok_iff _ _ _).mpr (hv hf),
        fun hf => (checkTexel_ok_iff _ _ _).mpr (ht hf)⟩
      obtain ⟨hfmt, hlen, harr⟩ := hi hf
      exact (checkIndex_ok_iff _ _ _).mpr ⟨hfmt, by omega, harr⟩
    · intro hf
      have hw := wrapSize_le (arraylength2 * bufferformat.length)
      have hm := Nat.mul_le_mul_right bufferformat.length hle
      have := hlim hf
      omega
  refine ⟨hsuff, fun hfits => ⟨?_, hsuff⟩⟩
  rintro ⟨b, h⟩
  obtain ⟨h1, h2, h3, h4, hall, size1, arraylength1, hres, hlim, _⟩ :=
    (construct_ok_iff cat caps settings bufferformat size arraylength b).mp h
  refine ⟨by omega, h2, h3, h4, ?_, ?_⟩
  · intro d hd
    obtain ⟨hi, hv, ht⟩ := (checkDeclaration_ok_iff _ _ _ _ _ _ _).mp (hall d hd)
    refine ⟨fun hf => ?_, fun hf => (checkVertex_ok_iff _ _ _).mp (hv hf),
      fun hf => (checkTexel_ok_iff _ _ _).mp (ht hf)⟩
    obtain ⟨hfmt, hlen, harr⟩ := (checkIndex_ok_iff _ _ _).mp (hi hf)
    have : 0 < bufferformat.length := List.length_pos.mpr h2
    exact ⟨hfmt, by omega, harr⟩
  · intro hf
    obtain ⟨hround, hprod⟩ := hfits hf
    have ha := resolveSize_arraylength _ _ _ _ _ hround hres
    have := hlim hf
    rw [ha, wrapSize_of_lt _ hprod] at this
    exact this

/-- Witness of C5 as amended: a texel buffer of two same-format members and four elements,
exactly at a limit of eight values, is accepted and constructed. -/
theorem C5_succeeds_iff_accepted_witness :
    (∀ f, 0 < (loveCatalog.getDataFormatInfo f).size) ∧
    Accepted loveCatalog (mkCapabilities false true 8) { typeFlags := TYPEFLAG_TEXEL }
      sampleTexelFormat 0 4 ∧
    ∃ b, Buffer.construct loveCatalog (mkCapabilities false true 8)
      { typeFlags := TYPEFLAG_TEXEL } sampleTexelFormat 0 4 = .ok b :=
  ⟨by intro f; cases f <;> decide, by decide,
    ((C5_succeeds_iff_accepted loveCatalog (mkCapabilities false true 8)
      { typeFlags := TYPEFLAG_TEXEL } sampleTexelFormat 0 4
      (by intro f; cases f <;> decide)).2 (fun _ => by decide)).mpr (by decide)⟩

/-! ## Failures of the top-level checks -/

/-- C6: the constructor fails with InvalidArgument whenever the requested size and array
length are both zero, and whenever the declaration list is empty, whatever the type flags
and the capabilities are. -/
theorem C6_missing_size_or_declarations {F : Type} [DecidableEq F] (cat : FormatCatalog F)
    (caps : Capabilities) (settings : Settings) (bufferformat : List (DataDeclaration F))
    (size arraylength : Nat) (h : (size = 0 ∧ arraylength = 0) ∨ bufferformat = []) :
    ∃ e, Buffer.construct cat caps settings bufferformat size arraylength = .error e ∧
      e.kind = some .InvalidArgument ∧
      (e = .sizeOrArrayLengthMustBeSpecified ∨ e = .dataFormatMustContainValues) := by
  by_cases h1 : size = 0 ∧ arraylength = 0
  · exact ⟨_, construct_no_size cat caps settings bufferformat size arraylength h1, rfl,
      Or.inl rfl⟩
  · have h2 : bufferformat = [] := h.resolve_left h1
    refine ⟨.dataFormatMustContainValues, ?_, rfl, Or.inr rfl⟩
    unfold Buffer.construct
    rw [if_neg h1, h2]
    rfl

/-- Witness of C6: valid vertex attributes with neither a size nor an array length, and an
empty declaration list with every flag set and every capability present. -/
theorem C6_missing_size_or_declarations_witness :
    (∃ e, Buffer.construct loveCatalog (mkCapabilities true true 100)
        { typeFlags := TYPEFLAG_VERTEX } sampleVertexFormat 0 0 = .error e ∧
      e.kind = some .InvalidArgument ∧
      (e = .sizeOrArrayLengthMustBeSpecified ∨ e = .dataFormatMustContainValues)) ∧
    (∃ e, Buffer.construct loveCatalog (mkCapabilities true true 100)
        { typeFlags := TYPEFLAG_INDEX ||| TYPEFLAG_VERTEX ||| TYPEFLAG_TEXEL } [] 16 4
          = .error e ∧
      e.kind = some .InvalidArgument ∧
      (e = .sizeOrArrayLengthMustBeSpecified ∨ e = .dataFormatMustContainValues)) :=
  ⟨C6_missing_size_or_declarations loveCatalog (mkCapabilities true true 100)
      { typeFlags := TYPEFLAG_VERTEX } sampleVertexFormat 0 0 (Or.inl ⟨rfl, rfl⟩),
    C6_missing_size_or_declarations loveCatalog (mkCapabilities true true 100)
      { typeFlags := TYPEFLAG_INDEX ||| TYPEFLAG_VERTEX ||| TYPEFLAG_TEXEL } [] 16 4
      (Or.inr rfl)⟩

/-- C7: when a size or array length is requested and the declaration list is non-empty,
the constructor fails with InvalidArgument if none of INDEX, VERTEX, TEXEL is set, whatever
the declarations and capabilities are. -/
theorem C7_no_type_flag {F : Type} [DecidableEq F] (cat : FormatCatalog F)
    (caps : Capabilities) (settings : Settings) (bufferformat : List (DataDeclaration F))
    (size arraylength : Nat)
    (h1 : size ≠ 0 ∨ arraylength ≠ 0) (h2 : bufferformat ≠ [])
    (hindex : settings.hasFlag TYPEFLAG_INDEX = false)
    (hvertex : settings.hasFlag TYPEFLAG_VERTEX = false)
    (htexel : settings.hasFlag TYPEFLAG_TEXEL = false) :
    ∃ e, Buffer.construct cat caps settings bufferformat size arraylength = .error e ∧
      e.kind = some .InvalidArgument ∧ e = .atLeastOneBufferType := by
  refine ⟨.atLeastOneBufferType, ?_, rfl, rfl⟩
  unfold Buffer.construct
  have h1n : ¬(size = 0 ∧ arraylength = 0) := by omega
  have h2len : ¬ bufferformat.length = 0 := by simpa using h2
  rw [if_neg h1n, if_neg h2len]
  simp [hindex, hvertex, htexel]

/-- Witness of C7: valid vertex attributes and full capabilities, with no type flag set. -/
theorem C7_no_type_flag_witness :
    ∃ e, Buffer.construct loveCatalog (mkCapabilities true true 100) { typeFlags := 0 }
        sampleVertexFormat 0 4 = .error e ∧
      e.kind = some .InvalidArgument ∧ e = .atLeastOneBufferType :=
  C7_no_type_flag loveCatalog (mkCapabilities true true 100) { typeFlags := 0 }
    sampleVertexFormat 0 4 (by decide) (by decide) (by decide) (by decide) (by decide)

/-- C8: when a size or array length is requested and the declaration list is non-empty,
the constructor fails with UnsupportedFeature if TEXEL is set and the capabilities report
no texel-buffer support, whatever the declarations and the other flags are. -/
theorem C8_texel_unsupported {F : Type} [DecidableEq F] (cat : FormatCatalog F)
    (caps : Capabilities) (settings : Settings) (bufferformat : List (DataDeclaration F))
    (size arraylength : Nat)
    (h1 : size ≠ 0 ∨ arraylength ≠ 0) (h2 : bufferformat ≠ [])
    (htexel : settings.hasFlag TYPEFLAG_TEXEL = true)
    (hsupport : caps.features .FEATURE_TEXEL_BUFFER = false) :
    ∃ e, Buffer.construct cat caps settings bufferformat size arraylength = .error e ∧
      e.kind = some .UnsupportedFeature ∧ e = .texelBuffersNotSupported :=
  ⟨.texelBuffersNotSupported,
    construct_texel_unsupported cat caps settings bufferformat size arraylength (by omega) h2
      htexel hsupport, rfl, rfl⟩

/-- Witness of C8: a vertex-and-texel buffer with an integer format and mixed formats
fails on the missing texel support, before any declaration is examined. -/
theorem C8_texel_unsupported_witness :
    ∃ e, Buffer.construct loveCatalog (mkCapabilities false false 0)
        { typeFlags := TYPEFLAG_VERTEX ||| TYPEFLAG_TEXEL } sampleMixedFormats 0 1
          = .error e ∧
      e.kind = some .UnsupportedFeature ∧ e = .texelBuffersNotSupported :=
  C8_texel_unsupported loveCatalog (mkCapabilities false false 0)
    { typeFlags := TYPEFLAG_VERTEX ||| TYPEFLAG_TEXEL } sampleMixedFormats 0 1
    (by decide) (by decide) (by decide) (by decide)

/-! ## Failures of the declaration checks -/

/-- C9 does not hold as stated: an INDEX-flagged buffer with two declarations fails with
InvalidArgument when neither a size nor an array length is requested, and with
UnsupportedFeature when TEXEL is also set on a backend without texel buffers. -/
theorem C9_counterexample :
    (({ typeFlags := TYPEFLAG_INDEX } : Settings).hasFlag TYPEFLAG_INDEX = true ∧
      sampleTwoIndices.length = 2 ∧
      Buffer.construct loveCatalog (mkCapabilities true true 100)
        { typeFlags := TYPEFLAG_INDEX } sampleTwoIndices 0 0
          = .error .sizeOrArrayLengthMustBeSpecified ∧
      BufferError.sizeOrArrayLengthMustBeSpecified.kind = some .InvalidArgument) ∧
    (({ typeFlags := TYPEFLAG_INDEX ||| TYPEFLAG_TEXEL } : Settings).hasFlag TYPEFLAG_INDEX
        = true ∧
      Buffer.construct loveCatalog (mkCapabilities true false 100)
        { typeFlags := TYPEFLAG_INDEX ||| TYPEFLAG_TEXEL } sampleTwoIndices 0 3
          = .error .texelBuffersNotSupported ∧
      BufferError.texelBuffersNotSupported.kind = some .UnsupportedFeature) :=
  ⟨⟨rfl, rfl, rfl, rfl⟩, ⟨rfl, rfl, rfl⟩⟩

/-- C9, amended: an INDEX-flagged buffer with two declarations always fails.  The failure
is InvalidFormat whenever a size or an array length is requested and TEXEL is not set or
texel buffers are supported; it is InvalidArgument when neither a size nor an array length
is requested, and UnsupportedFeature when one is requested and TEXEL is set without
texel-buffer support. -/
theorem C9_index_two_declarations {F : Type} [DecidableEq F] (cat : FormatCatalog F)
    (caps : Capabilities) (settings : Settings) (bufferformat : List (DataDeclaration F))
    (size arraylength : Nat)
    (hindex : settings.hasFlag TYPEFLAG_INDEX = true) (hlen : bufferformat.length = 2) :
    ∃ e, Buffer.construct cat caps settings bufferformat size arraylength = .error e ∧
      ((size ≠ 0 ∨ arraylength ≠ 0) →
        (settings.hasFlag TYPEFLAG_TEXEL = true → caps.features .FEATURE_TEXEL_BUFFER = true) →
        e.kind = some .InvalidFormat) ∧
      (size = 0 ∧ arraylength = 0 → e.kind = some .InvalidArgument) ∧
      ((size ≠ 0 ∨ arraylength ≠ 0) → settings.hasFlag TYPEFLAG_TEXEL = true →
        caps.features .FEATURE_TEXEL_BUFFER = false → e.kind = some .UnsupportedFeature) := by
  have hne : bufferformat ≠ [] := by
    intro h; rw [h] at hlen; simp at hlen
  by_cases h1 : size = 0 ∧ arraylength = 0
  · refine ⟨_, construct_no_size cat caps settings bufferformat size arraylength h1,
      fun h => by omega, fun _ => rfl, fun h => by omega⟩
  by_cases h4 : settings.hasFlag TYPEFLAG_TEXEL = true ∧
      caps.features .FEATURE_TEXEL_BUFFER = false
  · refine ⟨_, construct_texel_unsupported cat caps settings bufferformat size arraylength h1
      hne h4.1 h4.2, fun _ hs => ?_, fun h => absurd h h1, fun _ _ _ => rfl⟩
    have := hs h4.1
    rw [h4.2] at this
    cases this
  have h4imp : settings.hasFlag TYPEFLAG_TEXEL = true →
      caps.features .FEATURE_TEXEL_BUFFER = true := by
    intro ht
    cases hs : caps.features .FEATURE_TEXEL_BUFFER
    · exact absurd ⟨ht, hs⟩ h4
    · rfl
  rcases layoutMembers_spec cat (caps.features .FEATURE_GLSL3)
      (settings.hasFlag TYPEFLAG_INDEX) (settings.hasFlag TYPEFLAG_VERTEX)
      (settings.hasFlag TYPEFLAG_TEXEL) bufferformat bufferformat 0 []
    with ⟨hall, _⟩ | ⟨e, d, hd, hde, herr⟩
  · exfalso
    obtain ⟨d, hd⟩ := List.exists_mem_of_ne_nil bufferformat hne
    have hok := ((checkDeclaration_ok_iff _ _ _ _ _ _ _).mp (hall d hd)).1 hindex
    have := ((checkIndex_ok_iff cat bufferformat d).mp hok).2.1
    omega
  · refine ⟨e, construct_loop_error cat caps settings bufferformat size arraylength e h1 hne
      (Or.inl hindex) h4imp herr, fun _ _ => ?_, fun h => absurd h h1,
      fun _ ht hs => absurd ⟨ht, hs⟩ h4⟩
    obtain ⟨e1, he1, hk⟩ := checkIndex_error_of_many cat bufferformat d (by omega)
    have hde1 := checkDeclaration_index_error cat (caps.features .FEATURE_GLSL3)
      (settings.hasFlag TYPEFLAG_VERTEX) (settings.hasFlag TYPEFLAG_TEXEL) bufferformat d e1 he1
    rw [hindex] at hde
    rw [hde] at hde1
    cases hde1
    exact hk

/-- Witness of C9 as amended: two uint16 declarations in an INDEX buffer with four
elements requested fail with the single-value error, of kind InvalidFormat. -/
theorem C9_index_two_declarations_witness :
    Buffer.construct loveCatalog (mkCapabilities false false 0)
        { typeFlags := TYPEFLAG_INDEX } sampleTwoIndices 0 4 = .error .indexSingleValue ∧
    ∃ e, Buffer.construct loveCatalog (mkCapabilities false false 0)
        { typeFlags := TYPEFLAG_INDEX } sampleTwoIndices 0 4 = .error e ∧
      (((0 : Nat) ≠ 0 ∨ 4 ≠ 0) →
        (({ typeFlags := TYPEFLAG_INDEX } : Settings).hasFlag TYPEFLAG_TEXEL = true →
          (mkCapabilities false false 0).features .FEATURE_TEXEL_BUFFER = true) →
        e.kind = some .InvalidFormat) ∧
      ((0 : Nat) = 0 ∧ 4 = 0 → e.kind = some .InvalidArgument) ∧
      (((0 : Nat) ≠ 0 ∨ 4 ≠ 0) →
        ({ typeFlags := TYPEFLAG_INDEX } : Settings).hasFlag TYPEFLAG_TEXEL = true →
        (mkCapabilities false false 0).features .FEATURE_TEXEL_BUFFER = false →
        e.kind = some .UnsupportedFeature) :=
  ⟨rfl, C9_index_two_declarations loveCatalog (mkCapabilities false false 0)
    { typeFlags := TYPEFLAG_INDEX } sampleTwoIndices 0 4 (by decide) (by decide)⟩

/-- C10 does not hold as stated: a TEXEL-flagged buffer with differing formats fails with
UnsupportedFeature when VERTEX is also set, the backend lacks GLSL 3 and an integer
declaration comes first; it fails with InvalidArgument when neither a size nor an array
length is requested, and with UnsupportedFeature when texel buffers are unsupported. -/
theorem C10_counterexample :
    (({ typeFlags := TYPEFLAG_VERTEX ||| TYPEFLAG_TEXEL } : Settings).hasFlag TYPEFLAG_TEXEL
        = true ∧
      sampleMixedFormats.map (·.format) = [DATAFORMAT_UINT16, DATAFORMAT_FLOAT_VEC2] ∧
      Buffer.construct loveCatalog (mkCapabilities false true 100)
        { typeFlags := TYPEFLAG_VERTEX ||| TYPEFLAG_TEXEL } sampleMixedFormats 0 1
          = .error .vertexIntegerRequiresGLSL3 ∧
      BufferError.vertexIntegerRequiresGLSL3.kind = some .UnsupportedFeature) ∧
    (({ typeFlags := TYPEFLAG_TEXEL } : Settings).hasFlag TYPEFLAG_TEXEL = true ∧
      Buffer.construct loveCatalog (mkCapabilities true true 100)
        { typeFlags := TYPEFLAG_TEXEL } sampleMixedFormats 0 0
          = .error .sizeOrArrayLengthMustBeSpecified ∧
      BufferError.sizeOrArrayLengthMustBeSpecified.kind = some .InvalidArgument) ∧
    (Buffer.construct loveCatalog (mkCapabilities true false 100)
        { typeFlags := TYPEFLAG_TEXEL } sampleMixedFormats 0 1
          = .error .texelBuffersNotSupported ∧
      BufferError.texelBuffersNotSupported.kind = some .UnsupportedFeature) :=
  ⟨⟨rfl, rfl, rfl, rfl⟩, ⟨rfl, rfl, rfl⟩, ⟨rfl, rfl⟩⟩

/-- C10, amended: a TEXEL-flagged buffer whose declaration list contains a format that
differs from the first declaration's format always fails.  The failure is InvalidFormat
whenever a size or an array length is requested, texel buffers are supported, and VERTEX is
not set or GLSL 3 is supported or no declaration has an INT or UINT base type.  It is
InvalidArgument when neither a size nor an array length is requested, UnsupportedFeature
when one is requested and texel buffers are unsupported, and in the remaining case
InvalidFormat or UnsupportedFeature. -/
theorem C10_texel_differing_formats {F : Type} [DecidableEq F] (cat : FormatCatalog F)
    (caps : Capabilities) (settings : Settings) (bufferformat : List (DataDeclaration F))
    (size arraylength : Nat)
    (htexel : settings.hasFlag TYPEFLAG_TEXEL = true)
    (hdiff : ∃ first ∈ bufferformat.head?, ∃ d ∈ bufferformat, d.format ≠ first.format) :
    ∃ e, Buffer.construct cat caps settings bufferformat size arraylength = .error e ∧
      ((size ≠ 0 ∨ arraylength ≠ 0) → caps.features .FEATURE_TEXEL_BUFFER = true →
        (settings.hasFlag TYPEFLAG_VERTEX = false ∨ caps.features .FEATURE_GLSL3 = true ∨
          ∀ d ∈ bufferformat,
            (cat.getDataFormatInfo d.format).baseType ≠ DATA_BASETYPE_INT ∧
            (cat.getDataFormatInfo d.format).baseType ≠ DATA_BASETYPE_UINT) →
        e.kind = some .InvalidFormat) ∧
      (size = 0 ∧ arraylength = 0 → e.kind = some .InvalidArgument) ∧
      ((size ≠ 0 ∨ arraylength ≠ 0) → caps.features .FEATURE_TEXEL_BUFFER = false →
        e.kind = some .UnsupportedFeature) ∧
      ((size ≠ 0 ∨ arraylength ≠ 0) → caps.features .FEATURE_TEXEL_BUFFER = true →
        e.kind = some .InvalidFormat ∨ e.kind = some .UnsupportedFeature) := by
  obtain ⟨first, hfirst, d0, hd0, hne0⟩ := hdiff
  have hfirst : bufferformat.head? = some first := hfirst
  have hne : bufferformat ≠ [] := List.ne_nil_of_mem hd0
  by_cases h1 : size = 0 ∧ arraylength = 0
  · exact ⟨_, construct_no_size cat caps settings bufferformat size arraylength h1,
      fun h => by omega, fun _ => rfl, fun h => by omega, fun h => by omega⟩
  cases hs : caps.features .FEATURE_TEXEL_BUFFER with
  | false =>
    exact ⟨_, construct_texel_unsupported cat caps settings bufferformat size arraylength h1
      hne htexel hs, fun _ h => Bool.noConfusion h, fun h => absurd h h1, fun _ _ => rfl,
      fun _ h => Bool.noConfusion h⟩
  | true =>
    rcases layoutMembers_spec cat (caps.features .FEATURE_GLSL3)
        (settings.hasFlag TYPEFLAG_INDEX) (settings.hasFlag TYPEFLAG_VERTEX)
        (settings.hasFlag TYPEFLAG_TEXEL) bufferformat bufferformat 0 []
      with ⟨hall, _⟩ | ⟨e, d, hd, hde, herr⟩
    · exfalso
      have hok := ((checkDeclaration_ok_iff _ _ _ _ _ _ _).mp (hall d0 hd0)).2.2 htexel
      exact checkTexel_error_of_differs cat bufferformat d0 first hfirst hne0 hok
    · have hkind := checkDeclaration_error_kind _ _ _ _ _ _ _ e hde
      refine ⟨e, construct_loop_error cat caps settings bufferformat size arraylength e h1 hne
        (Or.inr (Or.inr htexel)) (fun _ => hs) herr, fun _ _ hcond => ?_,
        fun h => absurd h h1, fun _ h => Bool.noConfusion h, fun _ _ => ?_⟩
      · rcases hkind with hk | ⟨_, hv, hg, hb⟩
        · exact hk
        · rcases hcond with hnv | hglsl | hnone
          · rw [hv] at hnv; cases hnv
          · rw [hg] at hglsl; cases hglsl
          · have := hnone d hd
            rcases hb with hb | hb
            · exact absurd hb this.1
            · exact absurd hb this.2
      · rcases hkind with hk | ⟨he, _⟩
        · exact Or.inl hk
        · right; rw [he]; rfl

/-- Witness of C10 as amended: a texel buffer with a uint16 and a float-vec2 declaration
fails on the second declaration with the same-format error, of kind InvalidFormat. -/
theorem C10_texel_differing_formats_witness :
    Buffer.construct loveCatalog (mkCapabilities false true 100)
        { typeFlags := TYPEFLAG_TEXEL } sampleMixedFormats 0 1 = .error .texelSameFormat ∧
    ∃ e, Buffer.construct loveCatalog (mkCapabilities false true 100)
        { typeFlags := TYPEFLAG_TEXEL } sampleMixedFormats 0 1 = .error e ∧
      (((0 : Nat) ≠ 0 ∨ 1 ≠ 0) →
        (mkCapabilities false true 100).features .FEATURE_TEXEL_BUFFER = true →
        (({ typeFlags := TYPEFLAG_TEXEL } : Settings).hasFlag TYPEFLAG_VERTEX = false ∨
          (mkCapabilities false true 100).features .FEATURE_GLSL3 = true ∨
          ∀ d ∈ sampleMixedFormats,
            (loveCatalog.getDataFormatInfo d.format).baseType ≠ DATA_BASETYPE_INT ∧
            (loveCatalog.getDataFormatInfo d.format).baseType ≠ DATA_BASETYPE_UINT) →
        e.kind = some .InvalidFormat) ∧
      ((0 : Nat) = 0 ∧ 1 = 0 → e.kind = some .InvalidArgument) ∧
      (((0 : Nat) ≠ 0 ∨ 1 ≠ 0) →
        (mkCapabilities false true 100).features .FEATURE_TEXEL_BUFFER = false →
        e.kind = some .UnsupportedFeature) ∧
      (((0 : Nat) ≠ 0 ∨ 1 ≠ 0) →
        (mkCapabilities false true 100).features .FEATURE_TEXEL_BUFFER = true →
        e.kind = some .InvalidFormat ∨ e.kind = some .UnsupportedFeature) :=
  ⟨rfl, C10_texel_differing_formats loveCatalog (mkCapabilities false true 100)
    { typeFlags := TYPEFLAG_TEXEL } sampleMixedFormats 0 1 (by decide)
    ⟨{ name := "a", format := DATAFORMAT_UINT16 }, rfl,
      { name := "b", format := DATAFORMAT_FLOAT_VEC2 }, by decide, by decide⟩⟩

end Claims

/-! ## After the layout loop -/

section AfterLoop

/-- When the top-level checks and every declaration check pass, the constructor is the size
resolution followed by the texel-limit check (lines 129-148). -/
theorem construct_after_loop {F : Type} [DecidableEq F] (cat : FormatCatalog F)
    (caps : Capabilities) (settings : Settings) (bufferformat : List (DataDeclaration F))
    (size arraylength : Nat)
    (h1 : ¬(size = 0 ∧ arraylength = 0)) (h2 : bufferformat ≠ [])
    (h3 : settings.hasFlag TYPEFLAG_INDEX = true ∨ settings.hasFlag TYPEFLAG_VERTEX = true ∨
      settings.hasFlag TYPEFLAG_TEXEL = true)
    (h4 : settings.hasFlag TYPEFLAG_TEXEL = true → caps.features .FEATURE_TEXEL_BUFFER = true)
    (hall : ∀ d ∈ bufferformat,
      checkDeclaration cat (caps.features .FEATURE_GLSL3)
        (settings.hasFlag TYPEFLAG_INDEX) (settings.hasFlag TYPEFLAG_VERTEX)
        (settings.hasFlag TYPEFLAG_TEXEL) bufferformat d = .ok ()) :
    Buffer.construct cat caps settings bufferformat size arraylength =
      match resolveSize (strideOf cat bufferformat) size arraylength with
      | .error e => .error e
      | .ok (size1, arraylength1) =>
        if settings.hasFlag TYPEFLAG_TEXEL = true ∧
            wrapSize (arraylength1 * bufferformat.length)
              > caps.limits .LIMIT_TEXEL_BUFFER_SIZE then
          .error .texelTooLarge
        else
          .ok { dataMembers := packedMembers cat bufferformat 0
                arrayLength := arraylength1
                arrayStride := strideOf cat bufferformat
                size := size1
                typeFlags := settings.typeFlags
                usage := settings.usage
                mapFlags := settings.mapFlags
                mapped := false } := by
  rcases layoutMembers_spec cat (caps.features .FEATURE_GLSL3)
      (settings.hasFlag TYPEFLAG_INDEX) (settings.hasFlag TYPEFLAG_VERTEX)
      (settings.hasFlag TYPEFLAG_TEXEL) bufferformat bufferformat 0 []
    with ⟨_, hok⟩ | ⟨e, d, hd, hde, _⟩
  · unfold Buffer.construct
    have h2len : ¬ bufferformat.length = 0 := by simpa using h2
    have h3b : ¬ (!settings.hasFlag TYPEFLAG_INDEX && !settings.hasFlag TYPEFLAG_VERTEX &&
        !settings.hasFlag TYPEFLAG_TEXEL) = true := by
      revert h3
      cases settings.hasFlag TYPEFLAG_INDEX <;> cases settings.hasFlag TYPEFLAG_VERTEX <;>
        cases settings.hasFlag TYPEFLAG_TEXEL <;> simp
    have h4b : ¬ (settings.hasFlag TYPEFLAG_TEXEL && !caps.features .FEATURE_TEXEL_BUFFER)
        = true := by
      revert h4
      cases settings.hasFlag TYPEFLAG_TEXEL <;> cases caps.features .FEATURE_TEXEL_BUFFER <;>
        simp
    rw [if_neg h1, if_neg h2len, if_neg h3b, if_neg h4b, hok]
    simp only [Nat.zero_add, List.nil_append, packedMembers_length]
  · rw [hall d hd] at hde
    cases hde

/-- The conditions of `Accepted` make every declaration check pass. -/
theorem accepted_checks {F : Type} [DecidableEq F] (cat : FormatCatalog F)
    (caps : Capabilities) (settings : Settings) (bufferformat : List (DataDeclaration F))
    (hall : ∀ decl ∈ bufferformat,
      (settings.hasFlag TYPEFLAG_INDEX = true → IndexRules cat bufferformat decl) ∧
      (settings.hasFlag TYPEFLAG_VERTEX = true →
        VertexRules cat (caps.features .FEATURE_GLSL3) decl) ∧
      (settings.hasFlag TYPEFLAG_TEXEL = true → TexelRules cat bufferformat decl)) :
    ∀ d ∈ bufferformat,
      checkDeclaration cat (caps.features .FEATURE_GLSL3)
        (settings.hasFlag TYPEFLAG_INDEX) (settings.hasFlag TYPEFLAG_VERTEX)
        (settings.hasFlag TYPEFLAG_TEXEL) bufferformat d = .ok () := by
  intro d hd
  obtain ⟨hi, hv, ht⟩ := hall d hd
  rw [checkDeclaration_ok_iff]
  refine ⟨fun hf => ?_, fun hf => (checkVertex_ok_iff _ _ _).mpr (hv hf),
    fun hf => (checkTexel_ok_iff _ _ _).mpr (ht hf)⟩
  obtain ⟨hfmt, hlen, harr⟩ := hi hf
  exact (checkIndex_ok_iff _ _ _).mpr ⟨hfmt, by omega, harr⟩

/-- A declaration that passes the vertex block with GLSL 3 passes it without GLSL 3 unless
its base type is INT or UINT, in which case the GLSL 3 check throws. -/
theorem checkVertex_without_glsl3 {F : Type} (cat : FormatCatalog F)
    (decl : DataDeclaration F) (h : checkVertex cat true decl = .ok ()) :
    checkVertex cat false decl =
      if (cat.getDataFormatInfo decl.format).baseType = DATA_BASETYPE_INT ∨
          (cat.getDataFormatInfo decl.format).baseType = DATA_BASETYPE_UINT then
        .error .vertexIntegerRequiresGLSL3
      else .ok () := by
  simp only [checkVertex] at h ⊢
  split_ifs at h with h1 h2 h3 h4 h5
  rw [if_neg h1, if_neg h2, if_neg h3, if_neg h5]
  simp

/-- The declaration check without GLSL 3, for a declaration that passes it with GLSL 3:
it passes again, or it is the GLSL 3 failure of an INT or UINT vertex attribute. -/
theorem checkDeclaration_without_glsl3 {F : Type} [DecidableEq F] (cat : FormatCatalog F)
    (indexbuffer vertexbuffer texelbuffer : Bool)
    (bufferformat : List (DataDeclaration F)) (decl : DataDeclaration F)
    (h : checkDeclaration cat true indexbuffer vertexbuffer texelbuffer bufferformat decl
      = .ok ()) :
    checkDeclaration cat false indexbuffer vertexbuffer texelbuffer bufferformat decl =
      if vertexbuffer = true ∧
          ((cat.getDataFormatInfo decl.format).baseType = DATA_BASETYPE_INT ∨
            (cat.getDataFormatInfo decl.format).baseType = DATA_BASETYPE_UINT) then
        .error .vertexIntegerRequiresGLSL3
      else .ok () := by
  obtain ⟨hi, hv, ht⟩ := (checkDeclaration_ok_iff _ _ _ _ _ _ _).mp h
  unfold checkDeclaration
  cases indexbuffer <;> cases vertexbuffer <;> cases texelbuffer <;>
    simp only [true_implies, Bool.false_eq_true, if_false, if_true, false_and] at hi hv ht ⊢ <;>
    (try rw [hi]) <;> (try rw [checkVertex_without_glsl3 cat decl hv]) <;>
    (try rw [ht]) <;> (try simp only [true_and]) <;> split_ifs <;> rfl

/-- An accepted input over a catalogue of positive sizes is constructed: the buffer is the
tightly packed layout with the size and array length that `resolveSize` returns. -/
theorem construct_of_accepted {F : Type} [DecidableEq F] (cat : FormatCatalog F)
    (caps : Capabilities) (settings : Settings) (bufferformat : List (DataDeclaration F))
    (size arraylength : Nat) (hpos : ∀ f, 0 < (cat.getDataFormatInfo f).size)
    (hacc : Accepted cat caps settings bufferformat size arraylength) :
    ∃ size1 arraylength1,
      resolveSize (strideOf cat bufferformat) size arraylength = .ok (size1, arraylength1) ∧
      Buffer.construct cat caps settings bufferformat size arraylength =
        .ok { dataMembers := packedMembers cat bufferformat 0
              arrayLength := arraylength1
              arrayStride := strideOf cat bufferformat
              size := size1
              typeFlags := settings.typeFlags
              usage := settings.usage
              mapFlags := settings.mapFlags
              mapped := false } := by
  obtain ⟨h1, h2, h3, h4, hall, hlim⟩ := hacc
  have hstride : strideOf cat bufferformat ≠ 0 :=
    Nat.pos_iff_ne_zero.mp (strideOf_pos cat bufferformat h2 hpos)
  obtain ⟨size1, arraylength1, hres, hle⟩ :=
    resolveSize_of_stride_pos (strideOf cat bufferformat) size arraylength hstride
  refine ⟨size1, arraylength1, hres, ?_⟩
  rw [construct_after_loop cat caps settings bufferformat size arraylength (by omega) h2 h3 h4
    (accepted_checks cat caps settings bufferformat hall), hres]
  simp only
  rw [if_neg]
  rintro ⟨ht, hgt⟩
  have hw := wrapSize_le (arraylength1 * bufferformat.length)
  have hm := Nat.mul_le_mul_right bufferformat.length hle
  have := hlim ht
  omega

/-- A texel buffer that passes every check before the limit check and exceeds the limit,
with the rounded size and the product within `size_t`, fails with the too-large error. -/
theorem construct_texel_too_large {F : Type} [DecidableEq F] (cat : FormatCatalog F)
    (caps : Capabilities) (settings : Settings) (bufferformat : List (DataDeclaration F))
    (size arraylength : Nat) (hpos : ∀ f, 0 < (cat.getDataFormatInfo f).size)
    (h1 : size ≠ 0 ∨ arraylength ≠ 0) (h2 : bufferformat ≠ [])
    (htexel : settings.hasFlag TYPEFLAG_TEXEL = true)
    (hsupport : caps.features .FEATURE_TEXEL_BUFFER = true)
    (hall : ∀ decl ∈ bufferformat,
      (settings.hasFlag TYPEFLAG_INDEX = true → IndexRules cat bufferformat decl) ∧
      (settings.hasFlag TYPEFLAG_VERTEX = true →
        VertexRules cat (caps.features .FEATURE_GLSL3) decl) ∧
      (settings.hasFlag TYPEFLAG_TEXEL = true → TexelRules cat bufferformat decl))
    (hround : size ≠ 0 → roundUpToMultiple size (strideOf cat bufferformat) < 2 ^ 64)
    (hprod : derivedArrayLength (strideOf cat bufferformat) size arraylength *
      bufferformat.length < 2 ^ 64)
    (hgt : derivedArrayLength (strideOf cat bufferformat) size arraylength *
      bufferformat.length > caps.limits .LIMIT_TEXEL_BUFFER_SIZE) :
    Buffer.construct cat caps settings bufferformat size arraylength =
      .error .texelTooLarge := by
  have hstride : strideOf cat bufferformat ≠ 0 :=
    Nat.pos_iff_ne_zero.mp (strideOf_pos cat bufferformat h2 hpos)
  obtain ⟨size1, arraylength1, hres, _⟩ :=
    resolveSize_of_stride_pos (strideOf cat bufferformat) size arraylength hstride
  have ha := resolveSize_arraylength _ _ _ _ _ hround hres
  rw [construct_after_loop cat caps settings bufferformat size arraylength (by omega) h2
    (Or.inr (Or.inr htexel)) (fun _ => hsupport)
    (accepted_checks cat caps settings bufferformat hall), hres]
  simp only
  rw [if_pos]
  rw [ha, wrapSize_of_lt _ hprod]
  exact ⟨htexel, hgt⟩

/-- With an INT or UINT vertex attribute in an input whose declarations all pass with
GLSL 3, the layout loop without GLSL 3 stops with the GLSL 3 failure. -/
theorem layoutMembers_without_glsl3 {F : Type} [DecidableEq F] (cat : FormatCatalog F)
    (indexbuffer texelbuffer : Bool) (bufferformat : List (DataDeclaration F))
    (hall : ∀ d ∈ bufferformat,
      checkDeclaration cat true indexbuffer true texelbuffer bufferformat d = .ok ())
    (hint : ∃ d ∈ bufferformat,
      (cat.getDataFormatInfo d.format).baseType = DATA_BASETYPE_INT ∨
      (cat.getDataFormatInfo d.format).baseType = DATA_BASETYPE_UINT) :
    layoutMembers cat false indexbuffer true texelbuffer bufferformat bufferformat 0 [] =
      .error .vertexIntegerRequiresGLSL3 := by
  rcases layoutMembers_spec cat false indexbuffer true texelbuffer bufferformat bufferformat 0 []
    with ⟨hok, _⟩ | ⟨e, d, hd, hde, herr⟩
  · exfalso
    obtain ⟨d, hd, hbase⟩ := hint
    have h := hok d hd
    rw [checkDeclaration_without_glsl3 cat indexbuffer true texelbuffer bufferformat d
      (hall d hd), if_pos ⟨rfl, hbase⟩] at h
    cases h
  · rw [checkDeclaration_without_glsl3 cat indexbuffer true texelbuffer bufferformat d
      (hall d hd)] at hde
    split_ifs at hde
    cases hde
    exact herr

end AfterLoop

/-! ## Member lookup -/

section Lookup

/-- The lookup loop from index `start` either finds no member named `name` and returns
-1, or returns `start + i` for the first position `i` whose member is named `name`. -/
theorem getDataMemberIndexFrom_spec {F : Type} (name : String) (members : List (DataMember F)) :
    ∀ start : Nat,
    ((∀ m ∈ members, m.decl.name ≠ name) ∧ getDataMemberIndexFrom name members start = -1) ∨
    (∃ i, ∃ hi : i < members.length,
      getDataMemberIndexFrom name members start = ((start + i : Nat) : Int) ∧
      (members[i]).decl.name = name ∧
      ∀ m ∈ members.take i, m.decl.name ≠ name) := by
  induction members with
  | nil => intro start; left; simp [getDataMemberIndexFrom]
  | cons m rest ih =>
    intro start
    by_cases hm : m.decl.name = name
    · right
      exact ⟨0, by simp, by simp [getDataMemberIndexFrom, hm], by simpa using hm, by simp⟩
    · rcases ih (start + 1) with ⟨hall, hres⟩ | ⟨i, hi, hres, hname, hbefore⟩
      · left
        refine ⟨?_, by simp [getDataMemberIndexFrom, hm, hres]⟩
        intro x hx
        rcases List.mem_cons.mp hx with rfl | hx
        · exact hm
        · exact hall x hx
      · right
        refine ⟨i + 1, by simpa using hi, ?_, by simpa using hname, ?_⟩
        · simp only [getDataMemberIndexFrom, hm, if_false, hres]
          congr 1
          omega
        · intro x hx
          simp only [List.take_succ_cons, List.mem_cons] at hx
          rcases hx with rfl | hx
          · exact hm
          · exact hbefore x hx

/-- When the member names are pairwise distinct, the lookup of the name of member `i`
from index `start` returns `start + i`. -/
theorem getDataMemberIndexFrom_nodup {F : Type} (members : List (DataMember F)) :
    ∀ (start : Nat), (members.map (·.decl.name)).Nodup →
      ∀ (i : Nat) (hi : i < members.length),
        getDataMemberIndexFrom (members[i]).decl.name members start
          = ((start + i : Nat) : Int) := by
  induction members with
  | nil => intro start _ i hi; simp at hi
  | cons m rest ih =>
    intro start hnodup i hi
    simp only [List.map_cons, List.nodup_cons] at hnodup
    cases i with
    | zero => simp [getDataMemberIndexFrom]
    | succ j =>
      have hj : j < rest.length := by simpa using hi
      have hne : ¬ m.decl.name = (rest[j]).decl.name := by
        intro heq
        apply hnodup.1
        rw [heq]
        exact List.mem_map.mpr ⟨rest[j], List.getElem_mem hj, rfl⟩
      simp only [List.getElem_cons_succ, getDataMemberIndexFrom, hne, if_false]
      rw [ih (start + 1) hnodup.2 j hj]
      congr 1
      omega

/-- Member `i` of the packed layout wraps declaration `i`. -/
theorem packedMembers_getElem_decl {F : Type} (cat : FormatCatalog F)
    (decls : List (DataDeclaration F)) :
    ∀ (offset i : Nat) (hi : i < decls.length)
      (hi2 : i < (packedMembers cat decls offset).length),
      ((packedMembers cat decls offset)[i]).decl = decls[i] := by
  induction decls with
  | nil => intro offset i hi; simp at hi
  | cons decl rest ih =>
    intro offset i hi hi2
    cases i with
    | zero => simp [packedMembers, memberAt]
    | succ j =>
      simp only [packedMembers, List.getElem_cons_succ]
      exact ih _ j (by simpa using hi) _

end Lookup

/-! ## Capability-dependent outcomes -/

section CapabilityClaims

/-- C11: take a VERTEX-flagged input with a declaration of INT or UINT base type, a
backend with GLSL 3 and a backend without.  If the input succeeds on the backend with
GLSL 3, the same declaration list and size arguments fail with UnsupportedFeature on the
backend without; and the input does succeed on the backend with GLSL 3 whenever it meets
the acceptance conditions of section 4.1 there (all formats of positive size). -/
theorem C11_integer_attribute_needs_glsl3 {F : Type} [DecidableEq F] (cat : FormatCatalog F)
    (caps capsNo : Capabilities) (settings : Settings)
    (bufferformat : List (DataDeclaration F)) (size arraylength : Nat)
    (hvertex : settings.hasFlag TYPEFLAG_VERTEX = true)
    (hint : ∃ d ∈ bufferformat,
      (cat.getDataFormatInfo d.format).baseType = DATA_BASETYPE_INT ∨
      (cat.getDataFormatInfo d.format).baseType = DATA_BASETYPE_UINT)
    (hyes : caps.features .FEATURE_GLSL3 = true)
    (hno : capsNo.features .FEATURE_GLSL3 = false) :
    ((∃ b, Buffer.construct cat caps settings bufferformat size arraylength = .ok b) →
      ∃ e, Buffer.construct cat capsNo settings bufferformat size arraylength = .error e ∧
        e.kind = some .UnsupportedFeature) ∧
    ((∀ f, 0 < (cat.getDataFormatInfo f).size) →
      Accepted cat caps settings bufferformat size arraylength →
      ∃ b, Buffer.construct cat caps settings bufferformat size arraylength = .ok b) := by
  constructor
  · rintro ⟨b, hok⟩
    obtain ⟨h1, h2, h3, h4, hchecks, _⟩ :=
      (construct_ok_iff cat caps settings bufferformat size arraylength b).mp hok
    by_cases hts : settings.hasFlag TYPEFLAG_TEXEL = true ∧
        capsNo.features .FEATURE_TEXEL_BUFFER = false
    · exact ⟨.texelBuffersNotSupported,
        construct_texel_unsupported cat capsNo settings bufferformat size arraylength
          h1 h2 hts.1 hts.2, rfl⟩
    · refine ⟨.vertexIntegerRequiresGLSL3, ?_, rfl⟩
      rw [hyes, hvertex] at hchecks
      apply construct_loop_error cat capsNo settings bufferformat size arraylength _ h1 h2 h3
      · intro ht
        cases hs : capsNo.features .FEATURE_TEXEL_BUFFER
        · exact absurd ⟨ht, hs⟩ hts
        · rfl
      · rw [hno, hvertex]
        exact layoutMembers_without_glsl3 cat _ _ bufferformat hchecks hint
  · intro hpos hacc
    obtain ⟨size1, arraylength1, _, hok⟩ :=
      construct_of_accepted cat caps settings bufferformat size arraylength hpos hacc
    exact ⟨_, hok⟩

/-- Witness of C11: a position and a uint32 attribute, four elements, fail on the GLSL 3
check without GLSL 3 and are constructed with it. -/
theorem C11_integer_attribute_needs_glsl3_witness :
    Buffer.construct loveCatalog (mkCapabilities false false 0)
        { typeFlags := TYPEFLAG_VERTEX } sampleIntegerAttribute 0 4
      = .error .vertexIntegerRequiresGLSL3 ∧
    (∃ b, Buffer.construct loveCatalog (mkCapabilities true false 0)
        { typeFlags := TYPEFLAG_VERTEX } sampleIntegerAttribute 0 4 = .ok b) ∧
    (∃ e, Buffer.construct loveCatalog (mkCapabilities false false 0)
        { typeFlags := TYPEFLAG_VERTEX } sampleIntegerAttribute 0 4 = .error e ∧
      e.kind = some .UnsupportedFeature) :=
  ⟨rfl, ⟨_, rfl⟩,
    (C11_integer_attribute_needs_glsl3 loveCatalog (mkCapabilities true false 0)
      (mkCapabilities false false 0) { typeFlags := TYPEFLAG_VERTEX } sampleIntegerAttribute
      0 4 (by decide)
      ⟨{ name := "id", format := DATAFORMAT_UINT32 }, by decide, by decide⟩
      rfl rfl).1 ⟨_, rfl⟩⟩

/-- C12 does not hold as stated: for a texel buffer of two members that passes every
format check, a requested array length of 2^63 and a limit of 100 values, the product of
line 147 wraps around to 0 and the constructor succeeds, although the array length times
the number of members is greater than the limit. -/
theorem C12_counterexample :
    (∀ decl ∈ sampleTexelFormat, TexelRules loveCatalog sampleTexelFormat decl) ∧
    (Buffer.construct loveCatalog (mkCapabilities false true 100)
        { typeFlags := TYPEFLAG_TEXEL } sampleTexelFormat 0 9223372036854775808).toOption.map
      (fun b => (b.arrayLength, b.dataMembers.length)) = some (9223372036854775808, 2) ∧
    9223372036854775808 * 2 > (mkCapabilities false true 100).limits .LIMIT_TEXEL_BUFFER_SIZE :=
  ⟨by decide, by decide, by decide⟩

/-- C12, amended: for a TEXEL-flagged input that passes every check before the limit check
(a size or array length is requested, the list is non-empty, texel buffers are supported,
every declaration satisfies the rule sets of the flags that are set; all formats of
positive size), and whose rounded size and derived array length times member count are
below 2^64, the constructor fails with ResourceLimitExceeded when the derived array length
times the number of members is greater than the texel-buffer limit, and succeeds, with
that derived array length, when it is at most the limit. -/
theorem C12_texel_limit {F : Type} [DecidableEq F] (cat : FormatCatalog F)
    (caps : Capabilities) (settings : Settings) (bufferformat : List (DataDeclaration F))
    (size arraylength : Nat) (hpos : ∀ f, 0 < (cat.getDataFormatInfo f).size)
    (h1 : size ≠ 0 ∨ arraylength ≠ 0) (h2 : bufferformat ≠ [])
    (htexel : settings.hasFlag TYPEFLAG_TEXEL = true)
    (hsupport : caps.features .FEATURE_TEXEL_BUFFER = true)
    (hall : ∀ decl ∈ bufferformat,
      (settings.hasFlag TYPEFLAG_INDEX = true → IndexRules cat bufferformat decl) ∧
      (settings.hasFlag TYPEFLAG_VERTEX = true →
        VertexRules cat (caps.features .FEATURE_GLSL3) decl) ∧
      (settings.hasFlag TYPEFLAG_TEXEL = true → TexelRules cat bufferformat decl))
    (hround : size ≠ 0 → roundUpToMultiple size (strideOf cat bufferformat) < 2 ^ 64)
    (hprod : derivedArrayLength (strideOf cat bufferformat) size arraylength *
      bufferformat.length < 2 ^ 64) :
    (derivedArrayLength (strideOf cat bufferformat) size arraylength * bufferformat.length
        > caps.limits .LIMIT_TEXEL_BUFFER_SIZE →
      ∃ e, Buffer.construct cat caps settings bufferformat size arraylength = .error e ∧
        e.kind = some .ResourceLimitExceeded ∧ e = .texelTooLarge) ∧
    (derivedArrayLength (strideOf cat bufferformat) size arraylength * bufferformat.length
        ≤ caps.limits .LIMIT_TEXEL_BUFFER_SIZE →
      ∃ b, Buffer.construct cat caps settings bufferformat size arraylength = .ok b ∧
        b.dataMembers.length = bufferformat.length ∧
        b.arrayLength = derivedArrayLength (strideOf cat bufferformat) size arraylength) := by
  constructor
  · intro hgt
    exact ⟨.texelTooLarge, construct_texel_too_large cat caps settings bufferformat size
      arraylength hpos h1 h2 htexel hsupport hall hround hprod hgt, rfl, rfl⟩
  · intro hle
    obtain ⟨size1, arraylength1, hres, hok⟩ :=
      construct_of_accepted cat caps settings bufferformat size arraylength
        hpos ⟨h1, h2, Or.inr (Or.inr htexel), fun _ => hsupport, hall, fun _ => hle⟩
    exact ⟨_, hok, packedMembers_length cat bufferformat 0,
      resolveSize_arraylength _ _ _ _ _ hround hres⟩

/-- Witness of C12 as amended: two texel members and 25 requested bytes of an 8-byte
element give four elements, eight values: rejected at a limit of seven, constructed at a
limit of eight. -/
theorem C12_texel_limit_witness :
    (∃ e, Buffer.construct loveCatalog (mkCapabilities false true 7)
        { typeFlags := TYPEFLAG_TEXEL } sampleTexelFormat 25 0 = .error e ∧
      e.kind = some .ResourceLimitExceeded ∧ e = .texelTooLarge) ∧
    (∃ b, Buffer.construct loveCatalog (mkCapabilities false true 8)
        { typeFlags := TYPEFLAG_TEXEL } sampleTexelFormat 25 0 = .ok b ∧
      b.dataMembers.length = sampleTexelFormat.length ∧
      b.arrayLength = derivedArrayLength (strideOf loveCatalog sampleTexelFormat) 25 0) :=
  ⟨(C12_texel_limit loveCatalog (mkCapabilities false true 7)
      { typeFlags := TYPEFLAG_TEXEL } sampleTexelFormat 25 0
      (by intro f; cases f <;> decide) (by decide) (by decide) (by decide) rfl
      (by decide) (by decide) (by decide)).1 (by decide),
    (C12_texel_limit loveCatalog (mkCapabilities false true 8)
      { typeFlags := TYPEFLAG_TEXEL } sampleTexelFormat 25 0
      (by intro f; cases f <;> decide) (by decide) (by decide) (by decide) rfl
      (by decide) (by decide) (by decide)).2 (by decide)⟩

end CapabilityClaims

/-! ## Lookup of a member by name -/

section LookupClaims

/-- C13: `getDataMemberIndex(name)` returns -1 exactly when no member has that name;
otherwise it returns the zero-based position of a member with that name before which no
member has that name.  For members named "position" and "color" the index of "color" is 1
and the index of "uv" is -1. -/
theorem C13_index_of_first_match {F : Type} (b : Buffer F) (name : String) :
    (b.getDataMemberIndex name = -1 ↔ ∀ m ∈ b.dataMembers, m.decl.name ≠ name) ∧
    ((∃ m ∈ b.dataMembers, m.decl.name = name) →
      ∃ i, ∃ hi : i < b.dataMembers.length,
        b.getDataMemberIndex name = (i : Int) ∧
        (b.dataMembers[i]).decl.name = name ∧
        ∀ m ∈ b.dataMembers.take i, m.decl.name ≠ name) ∧
    (b.dataMembers.map (·.decl.name) = ["position", "color"] →
      b.getDataMemberIndex "color" = 1 ∧ b.getDataMemberIndex "uv" = -1) := by
  refine ⟨?_, ?_, ?_⟩
  · rcases getDataMemberIndexFrom_spec name b.dataMembers 0 with
      ⟨hall, hres⟩ | ⟨i, hi, hres, hname, _⟩
    · exact ⟨fun _ => hall, fun _ => hres⟩
    · constructor
      · intro h
        unfold Buffer.getDataMemberIndex at h
        rw [hres] at h
        omega
      · intro hall
        exact absurd hname (hall _ (List.getElem_mem hi))
  · rintro ⟨m, hm, hmn⟩
    rcases getDataMemberIndexFrom_spec name b.dataMembers 0 with
      ⟨hall, _⟩ | ⟨i, hi, hres, hname, hbefore⟩
    · exact absurd hmn (hall m hm)
    · refine ⟨i, hi, ?_, hname, hbefore⟩
      unfold Buffer.getDataMemberIndex
      rw [hres, Nat.zero_add]
  · intro hnames
    unfold Buffer.getDataMemberIndex
    generalize b.dataMembers = members at hnames
    rcases members with _ | ⟨m1, _ | ⟨m2, _ | ⟨m3, rest⟩⟩⟩
    · simp at hnames
    · simp at hnames
    · simp only [List.map_cons, List.map_nil, List.cons.injEq, and_true] at hnames
      obtain ⟨hn1, hn2⟩ := hnames
      simp only [getDataMemberIndexFrom, hn1, hn2]
      decide
    · simp at hnames

/-- Witness of C13: the buffer constructed from a position and a colour declaration. -/
theorem C13_index_of_first_match_witness :
    Buffer.construct loveCatalog (mkCapabilities false false 0)
        { typeFlags := TYPEFLAG_VERTEX } samplePositionColor 0 4
      = .ok samplePositionColorBuffer ∧
    samplePositionColorBuffer.getDataMemberIndex "color" = 1 ∧
    samplePositionColorBuffer.getDataMemberIndex "uv" = -1 ∧
    samplePositionColorBuffer.getDataMemberIndex "position" = 0 :=
  ⟨rfl, ((C13_index_of_first_match samplePositionColorBuffer "color").2.2 rfl).1,
    ((C13_index_of_first_match samplePositionColorBuffer "uv").2.2 rfl).2, rfl⟩

/-- C20: for a successfully constructed buffer, a non-negative result `r` of
`getDataMemberIndex(name)` is below the number of members and member `r` is named `name`;
and if the names of the input declarations are pairwise distinct, the index of the name of
declaration `i` is `i`. -/
theorem C20_lookup_of_declared_names {F : Type} [DecidableEq F] (cat : FormatCatalog F)
    (caps : Capabilities) (settings : Settings) (bufferformat : List (DataDeclaration F))
    (size arraylength : Nat) (b : Buffer F)
    (h : Buffer.construct cat caps settings bufferformat size arraylength = .ok b) :
    (∀ name : String, 0 ≤ b.getDataMemberIndex name →
      ∃ i, ∃ hi : i < b.dataMembers.length,
        b.getDataMemberIndex name = (i : Int) ∧ (b.dataMembers[i]).decl.name = name) ∧
    ((bufferformat.map (·.name)).Nodup →
      ∀ (i : Nat) (hi : i < bufferformat.length),
        b.getDataMemberIndex (bufferformat[i]).name = (i : Int)) := by
  constructor
  · intro name hr
    rcases getDataMemberIndexFrom_spec name b.dataMembers 0 with
      ⟨_, hres⟩ | ⟨i, hi, hres, hname, _⟩
    · unfold Buffer.getDataMemberIndex at hr
      rw [hres] at hr
      omega
    · refine ⟨i, hi, ?_, hname⟩
      unfold Buffer.getDataMemberIndex
      rw [hres, Nat.zero_add]
  · intro hnodup i hi
    obtain ⟨_, _, _, _, _, size1, arraylength1, _, _, hb⟩ :=
      (construct_ok_iff cat caps settings bufferformat size arraylength b).mp h
    subst hb
    have hi2 : i < (packedMembers cat bufferformat 0).length := by
      rw [packedMembers_length]; exact hi
    have hnames : (packedMembers cat bufferformat 0).map (·.decl.name)
        = bufferformat.map (·.name) := by
      have hm := congrArg (List.map (·.name)) (packedMembers_map_decl cat bufferformat 0)
      simpa [List.map_map] using hm
    have hres := getDataMemberIndexFrom_nodup (packedMembers cat bufferformat 0) 0
      (by rw [hnames]; exact hnodup) i hi2
    rw [packedMembers_getElem_decl cat bufferformat 0 i hi hi2, Nat.zero_add] at hres
    exact hres

/-- Witness of C20: each of the three distinct attribute names is found at its own
position. -/
theorem C20_lookup_of_declared_names_witness :
    ∃ b, Buffer.construct loveCatalog (mkCapabilities false false 0)
        { typeFlags := TYPEFLAG_VERTEX } sampleVertexFormat 0 4 = .ok b ∧
      b.getDataMemberIndex "texcoord" = 1 ∧
      ((∀ name : String, 0 ≤ b.getDataMemberIndex name →
        ∃ i, ∃ hi : i < b.dataMembers.length,
          b.getDataMemberIndex name = (i : Int) ∧ (b.dataMembers[i]).decl.name = name) ∧
      ((sampleVertexFormat.map (·.name)).Nodup →
        ∀ (i : Nat) (hi : i < sampleVertexFormat.length),
          b.getDataMemberIndex (sampleVertexFormat[i]).name = (i : Int))) :=
  ⟨_, rfl, rfl,
    C20_lookup_of_declared_names loveCatalog (mkCapabilities false false 0)
      { typeFlags := TYPEFLAG_VERTEX } sampleVertexFormat 0 4 _ rfl⟩

end LookupClaims

/-! ## The common formats -/

section CommonFormatClaims

/-- Every declaration of every common format has array length 0 and, in the catalogue of
the formats named in `Buffer.cpp`, a format that is not a matrix and whose base type is
none of BOOL, INT and UINT. -/
theorem commonFormat_declarations (getConstant : BuiltinVertexAttribute → String)
    (format : CommonFormat) :
    ∀ d ∈ getCommonFormatDeclaration getConstant format,
      d.arrayLength = 0 ∧
      (loveCatalog.getDataFormatInfo d.format).isMatrix = false ∧
      (loveCatalog.getDataFormatInfo d.format).baseType ≠ DATA_BASETYPE_BOOL ∧
      (loveCatalog.getDataFormatInfo d.format).baseType ≠ DATA_BASETYPE_INT ∧
      (loveCatalog.getDataFormatInfo d.format).baseType ≠ DATA_BASETYPE_UINT ∧
      ∃ a, d.name = getConstant a := by
  intro d hd
  cases format <;> simp only [getCommonFormatDeclaration, List.mem_cons, List.mem_singleton,
    List.not_mem_nil, or_false] at hd
  all_goals
    rcases hd with rfl | rfl | rfl
    all_goals exact ⟨rfl, rfl, by simp [loveCatalog, getDataFormatInfo],
      by simp [loveCatalog, getDataFormatInfo], by simp [loveCatalog, getDataFormatInfo],
      _, rfl⟩

/-- Every format of the catalogue of the formats named in `Buffer.cpp` has a positive
size. -/
theorem loveCatalog_size_pos : ∀ f, 0 < (loveCatalog.getDataFormatInfo f).size := by
  intro f
  cases f <;> decide

/-- C14: the position+texcoord+color tag `XYf_STf_RGBAub` yields exactly the declarations
position, texcoord, color with formats float-vec2, float-vec2, unorm8-vec4 and array
length 0; with non-empty attribute names, constructing from this list with VERTEX as the
only type flag, requested size 0 and requested array length 4 succeeds with member offsets
0, 8, 16, a stride of 20 bytes and a size of 80 bytes. -/
theorem C14_position_texcoord_color (getConstant : BuiltinVertexAttribute → String)
    (caps : Capabilities) (settings : Settings)
    (hnames : ∀ a, getConstant a ≠ "")
    (hvertex : settings.hasFlag TYPEFLAG_VERTEX = true)
    (hindex : settings.hasFlag TYPEFLAG_INDEX = false)
    (htexel : settings.hasFlag TYPEFLAG_TEXEL = false) :
    getCommonFormatDeclaration getConstant .XYf_STf_RGBAub =
      [{ name := getConstant ATTRIB_POS, format := DATAFORMAT_FLOAT_VEC2, arrayLength := 0 },
       { name := getConstant ATTRIB_TEXCOORD, format := DATAFORMAT_FLOAT_VEC2,
         arrayLength := 0 },
       { name := getConstant ATTRIB_COLOR, format := DATAFORMAT_UNORM8_VEC4,
         arrayLength := 0 }] ∧
    ∃ b, Buffer.construct loveCatalog caps settings
        (getCommonFormatDeclaration getConstant .XYf_STf_RGBAub) 0 4 = .ok b ∧
      b.dataMembers.map (·.decl) = getCommonFormatDeclaration getConstant .XYf_STf_RGBAub ∧
      b.dataMembers.map (·.offset) = [0, 8, 16] ∧
      b.arrayStride = 20 ∧ b.arrayLength = 4 ∧ b.size = 80 := by
  refine ⟨rfl, ?_⟩
  have hacc : Accepted loveCatalog caps settings
      (getCommonFormatDeclaration getConstant .XYf_STf_RGBAub) 0 4 := by
    refine ⟨Or.inr (by decide), by simp [getCommonFormatDeclaration],
      Or.inr (Or.inl hvertex), by simp [htexel], ?_, by simp [htexel]⟩
    intro d hd
    obtain ⟨harr, hmat, hbool, hint, huint, a, ha⟩ :=
      commonFormat_declarations getConstant .XYf_STf_RGBAub d hd
    refine ⟨by simp [hindex], fun _ => ⟨harr, hmat, hbool, fun h => ?_, ?_⟩, by simp [htexel]⟩
    · rcases h with h | h
      · exact absurd h hint
      · exact absurd h huint
    · rw [ha]; exact hnames a
  have hsize := resolveSize_zero
    (strideOf loveCatalog (getCommonFormatDeclaration getConstant .XYf_STf_RGBAub)) 4
  have hcon := construct_after_loop loveCatalog caps settings
    (getCommonFormatDeclaration getConstant .XYf_STf_RGBAub) 0 4 (by decide)
    hacc.2.1 hacc.2.2.1 hacc.2.2.2.1
    (accepted_checks loveCatalog caps settings _ hacc.2.2.2.2.1)
  rw [hsize] at hcon
  simp only [htexel, Bool.false_eq_true, false_and, if_false] at hcon
  exact ⟨_, hcon, packedMembers_map_decl loveCatalog _ 0, rfl, rfl, rfl, rfl⟩

/-- Witness of C14: the semantic names "position", "texcoord", "color" on a backend
without GLSL 3. -/
theorem C14_position_texcoord_color_witness :
    getCommonFormatDeclaration semanticName .XYf_STf_RGBAub = sampleVertexFormat ∧
    ∃ b, Buffer.construct loveCatalog (mkCapabilities false false 0)
        { typeFlags := TYPEFLAG_VERTEX }
        (getCommonFormatDeclaration semanticName .XYf_STf_RGBAub) 0 4 = .ok b ∧
      b.dataMembers.map (·.decl) = getCommonFormatDeclaration semanticName .XYf_STf_RGBAub ∧
      b.dataMembers.map (·.offset) = [0, 8, 16] ∧
      b.arrayStride = 20 ∧ b.arrayLength = 4 ∧ b.size = 80 :=
  ⟨rfl, (C14_position_texcoord_color semanticName (mkCapabilities false false 0)
    { typeFlags := TYPEFLAG_VERTEX } (by intro a; cases a <;> decide)
    (by decide) (by decide) (by decide)).2⟩

/-- C15: `getCommonFormatDeclaration` returns the empty list for `NONE` and for every
value outside the named tags, and a non-empty list for every other tag; the constructor
fails on the empty list with InvalidArgument, the empty-declarations failure, for any
nonzero size or array length, any flags and any capabilities. -/
theorem C15_unrecognized_tag_is_empty (getConstant : BuiltinVertexAttribute → String)
    (cat : FormatCatalog DataFormat) (caps : Capabilities) (settings : Settings)
    (size arraylength : Nat) :
    getCommonFormatDeclaration getConstant .NONE = [] ∧
    (∀ raw, getCommonFormatDeclaration getConstant (.unrecognized raw) = []) ∧
    (∀ format, format ≠ .NONE → (∀ raw, format ≠ .unrecognized raw) →
      getCommonFormatDeclaration getConstant format ≠ []) ∧
    (∀ format, getCommonFormatDeclaration getConstant format = [] →
      (size ≠ 0 ∨ arraylength ≠ 0) →
      ∃ e, Buffer.construct cat caps settings
          (getCommonFormatDeclaration getConstant format) size arraylength = .error e ∧
        e = .dataFormatMustContainValues ∧ e.kind = some .InvalidArgument) := by
  refine ⟨rfl, fun _ => rfl, ?_, ?_⟩
  · intro format hnone hraw
    cases format <;> simp [getCommonFormatDeclaration] at hnone hraw ⊢
  · intro format hempty h1
    refine ⟨.dataFormatMustContainValues, ?_, rfl, rfl⟩
    rw [hempty]
    unfold Buffer.construct
    rw [if_neg (by omega)]
    rfl

/-- Witness of C15: an out-of-range tag value, with every flag set and every capability
present. -/
theorem C15_unrecognized_tag_is_empty_witness :
    getCommonFormatDeclaration semanticName (.unrecognized 99) = [] ∧
    ∃ e, Buffer.construct loveCatalog (mkCapabilities true true 100)
        { typeFlags := TYPEFLAG_INDEX ||| TYPEFLAG_VERTEX ||| TYPEFLAG_TEXEL }
        (getCommonFormatDeclaration semanticName (.unrecognized 99)) 0 4 = .error e ∧
      e = .dataFormatMustContainValues ∧ e.kind = some .InvalidArgument :=
  ⟨rfl, (C15_unrecognized_tag_is_empty semanticName loveCatalog (mkCapabilities true true 100)
    { typeFlags := TYPEFLAG_INDEX ||| TYPEFLAG_VERTEX ||| TYPEFLAG_TEXEL } 0 4).2.2.2
    (.unrecognized 99) rfl (Or.inr (by decide))⟩

/-- C16, the code at the failing input: for the tag `XYf_STPf_RGBAub` the texcoord
declaration has format float-vec2, not float-vec3 as in `XYf_STPf` and `STPf_RGBAub`, so
the list equals the one of `XYf_STf_RGBAub`; every other pair of distinct named tags has
distinct lists. -/
theorem C16_texcoord_format_of_XYf_STPf_RGBAub
    (getConstant : BuiltinVertexAttribute → String) :
    (getCommonFormatDeclaration getConstant .XYf_STPf_RGBAub).map (·.format) =
      [DATAFORMAT_FLOAT_VEC2, DATAFORMAT_FLOAT_VEC2, DATAFORMAT_UNORM8_VEC4] ∧
    (getCommonFormatDeclaration getConstant .XYf_STPf).map (·.format) =
      [DATAFORMAT_FLOAT_VEC2, DATAFORMAT_FLOAT_VEC3] ∧
    (getCommonFormatDeclaration getConstant .STPf_RGBAub).map (·.format) =
      [DATAFORMAT_FLOAT_VEC3, DATAFORMAT_UNORM8_VEC4] ∧
    getCommonFormatDeclaration getConstant .XYf_STPf_RGBAub =
      getCommonFormatDeclaration getConstant .XYf_STf_RGBAub ∧
    (∀ f g : CommonFormat, f.isLayout = true → g.isLayout = true → f ≠ g →
      getCommonFormatDeclaration getConstant f = getCommonFormatDeclaration getConstant g →
      (f = .XYf_STf_RGBAub ∧ g = .XYf_STPf_RGBAub) ∨
      (f = .XYf_STPf_RGBAub ∧ g = .XYf_STf_RGBAub)) := by
  refine ⟨rfl, rfl, rfl, rfl, ?_⟩
  intro f g hf hg hne heq
  cases f <;> cases g <;>
    simp [getCommonFormatDeclaration, CommonFormat.isLayout] at hf hg hne heq ⊢

/-- C19: with non-empty attribute names, the declaration list of every named tag other
than `NONE` is accepted by the constructor with VERTEX as the only type flag, for any
requested size and array length that are not both zero and any capabilities, GLSL 3 or
not: no common format uses an array, a matrix, a BOOL, an INT or a UINT base type. -/
theorem C19_common_formats_are_vertex_formats
    (getConstant : BuiltinVertexAttribute → String) (format : CommonFormat)
    (caps : Capabilities) (settings : Settings) (size arraylength : Nat)
    (hnames : ∀ a, getConstant a ≠ "")
    (hformat : format.isLayout = true)
    (h1 : size ≠ 0 ∨ arraylength ≠ 0)
    (hvertex : settings.hasFlag TYPEFLAG_VERTEX = true)
    (hindex : settings.hasFlag TYPEFLAG_INDEX = false)
    (htexel : settings.hasFlag TYPEFLAG_TEXEL = false) :
    (∃ b, Buffer.construct loveCatalog caps settings
        (getCommonFormatDeclaration getConstant format) size arraylength = .ok b) ∧
    (∀ d ∈ getCommonFormatDeclaration getConstant format,
      d.arrayLength = 0 ∧
      (loveCatalog.getDataFormatInfo d.format).isMatrix = false ∧
      (loveCatalog.getDataFormatInfo d.format).baseType ≠ DATA_BASETYPE_BOOL ∧
      (loveCatalog.getDataFormatInfo d.format).baseType ≠ DATA_BASETYPE_INT ∧
      (loveCatalog.getDataFormatInfo d.format).baseType ≠ DATA_BASETYPE_UINT) := by
  have hne : getCommonFormatDeclaration getConstant format ≠ [] := by
    cases format <;> simp [getCommonFormatDeclaration, CommonFormat.isLayout] at hformat ⊢
  have hacc : Accepted loveCatalog caps settings
      (getCommonFormatDeclaration getConstant format) size arraylength := by
    refine ⟨h1, hne, Or.inr (Or.inl hvertex), by simp [htexel], ?_, by simp [htexel]⟩
    intro d hd
    obtain ⟨harr, hmat, hbool, hint, huint, a, ha⟩ :=
      commonFormat_declarations getConstant format d hd
    refine ⟨by simp [hindex], fun _ => ⟨harr, hmat, hbool, fun h => ?_, ?_⟩, by simp [htexel]⟩
    · rcases h with h | h
      · exact absurd h hint
      · exact absurd h huint
    · rw [ha]; exact hnames a
  obtain ⟨size1, arraylength1, _, hok⟩ := construct_of_accepted loveCatalog caps settings
    (getCommonFormatDeclaration getConstant format) size arraylength loveCatalog_size_pos hacc
  refine ⟨⟨_, hok⟩, fun d hd => ?_⟩
  obtain ⟨harr, hmat, hbool, hint, huint, _⟩ :=
    commonFormat_declarations getConstant format d hd
  exact ⟨harr, hmat, hbool, hint, huint⟩

/-- Witness of C19: the three-component position format on a backend without GLSL 3, with
a requested size of 30 bytes. -/
theorem C19_common_formats_are_vertex_formats_witness :
    (∃ b, Buffer.construct loveCatalog (mkCapabilities false false 0)
        { typeFlags := TYPEFLAG_VERTEX }
        (getCommonFormatDeclaration semanticName .XYZf) 30 0 = .ok b) ∧
    (∀ d ∈ getCommonFormatDeclaration semanticName .XYZf,
      d.arrayLength = 0 ∧
      (loveCatalog.getDataFormatInfo d.format).isMatrix = false ∧
      (loveCatalog.getDataFormatInfo d.format).baseType ≠ DATA_BASETYPE_BOOL ∧
      (loveCatalog.getDataFormatInfo d.format).baseType ≠ DATA_BASETYPE_INT ∧
      (loveCatalog.getDataFormatInfo d.format).baseType ≠ DATA_BASETYPE_UINT) :=
  C19_common_formats_are_vertex_formats semanticName .XYZf (mkCapabilities false false 0)
    { typeFlags := TYPEFLAG_VERTEX } 30 0 (by intro a; cases a <;> decide) rfl
    (Or.inl (by decide)) (by decide) (by decide) (by decide)

end CommonFormatClaims

/-! ## Size resolution: the divisor and the ignored array length -/

section SizeClaims

/-- C17: when every format has a positive byte size, the loop over a non-empty declaration
list that passes every check ends with a strictly positive cursor, which is the stride
that `size % stride` and `size / stride` divide by; the constructor never ends in the
division by zero. -/
theorem C17_stride_positive {F : Type} [DecidableEq F] (cat : FormatCatalog F)
    (caps : Capabilities) (settings : Settings) (bufferformat : List (DataDeclaration F))
    (size arraylength : Nat) (hpos : ∀ f, 0 < (cat.getDataFormatInfo f).size) :
    (∀ (offset : Nat) (dataMembers : List (DataMember F)), bufferformat ≠ [] →
      layoutMembers cat (caps.features .FEATURE_GLSL3) (settings.hasFlag TYPEFLAG_INDEX)
        (settings.hasFlag TYPEFLAG_VERTEX) (settings.hasFlag TYPEFLAG_TEXEL)
        bufferformat bufferformat 0 [] = .ok (offset, dataMembers) →
      0 < offset ∧ ∃ r, resolveSize offset size arraylength = .ok r) ∧
    Buffer.construct cat caps settings bufferformat size arraylength
      ≠ .error .divisionByZero := by
  have hloop : ∀ (offset : Nat) (dataMembers : List (DataMember F)), bufferformat ≠ [] →
      layoutMembers cat (caps.features .FEATURE_GLSL3) (settings.hasFlag TYPEFLAG_INDEX)
        (settings.hasFlag TYPEFLAG_VERTEX) (settings.hasFlag TYPEFLAG_TEXEL)
        bufferformat bufferformat 0 [] = .ok (offset, dataMembers) →
      0 < offset ∧ ∃ r, resolveSize offset size arraylength = .ok r := by
    intro offset dataMembers hne hres
    rcases layoutMembers_spec cat (caps.features .FEATURE_GLSL3)
        (settings.hasFlag TYPEFLAG_INDEX) (settings.hasFlag TYPEFLAG_VERTEX)
        (settings.hasFlag TYPEFLAG_TEXEL) bufferformat bufferformat 0 []
      with ⟨_, hok⟩ | ⟨e, d, _, _, herr⟩
    · rw [hok] at hres
      simp only [Nat.zero_add, Except.ok.injEq, Prod.mk.injEq] at hres
      have hp := strideOf_pos cat bufferformat hne hpos
      rw [hres.1] at hp
      obtain ⟨size1, arraylength1, hr, _⟩ :=
        resolveSize_of_stride_pos offset size arraylength (Nat.pos_iff_ne_zero.mp hp)
      exact ⟨hp, _, hr⟩
    · rw [herr] at hres
      cases hres
  refine ⟨hloop, ?_⟩
  intro h
  unfold Buffer.construct at h
  dsimp only at h
  split_ifs at h with c1 c2 c3 c4 <;> first | cases h | skip
  have hne : bufferformat ≠ [] := by simpa using c2
  rcases layoutMembers_spec cat (caps.features .FEATURE_GLSL3)
      (settings.hasFlag TYPEFLAG_INDEX) (settings.hasFlag TYPEFLAG_VERTEX)
      (settings.hasFlag TYPEFLAG_TEXEL) bufferformat bufferformat 0 []
    with ⟨_, hok⟩ | ⟨e, d, _, hde, herr⟩
  · obtain ⟨_, r, hr⟩ := hloop _ _ hne hok
    rw [hok] at h
    simp only at h
    rw [hr] at h
    simp only at h
    split_ifs at h
    cases h
  · rw [herr] at h
    simp only [Except.error.injEq] at h
    rw [h] at hde
    rcases checkDeclaration_error_kind _ _ _ _ _ _ _ _ hde with hk | ⟨he, _⟩
    · cases hk
    · cases he

/-- Witness of C17: for the catalogue of the formats named in `Buffer.cpp` and the three
vertex attributes, the loop ends at cursor 20 and a request of 81 bytes is resolved. -/
theorem C17_stride_positive_witness :
    layoutMembers loveCatalog false false true false sampleVertexFormat sampleVertexFormat 0 []
      = .ok (20, packedMembers loveCatalog sampleVertexFormat 0) ∧
    (0 < 20 ∧ ∃ r, resolveSize 20 81 0 = .ok r) ∧
    Buffer.construct loveCatalog (mkCapabilities false false 0)
      { typeFlags := TYPEFLAG_VERTEX } sampleVertexFormat 81 0 ≠ .error .divisionByZero :=
  ⟨rfl,
    (C17_stride_positive loveCatalog (mkCapabilities false false 0)
      { typeFlags := TYPEFLAG_VERTEX } sampleVertexFormat 81 0
      (by intro f; cases f <;> decide)).1 20 _ (by decide) rfl,
    (C17_stride_positive loveCatalog (mkCapabilities false false 0)
      { typeFlags := TYPEFLAG_VERTEX } sampleVertexFormat 81 0
      (by intro f; cases f <;> decide)).2⟩

/-- C18: when the requested size is nonzero, the requested array length is ignored: two
calls that differ only in the requested array length have the same outcome, the same error
or the same buffer. -/
theorem C18_array_length_ignored {F : Type} [DecidableEq F] (cat : FormatCatalog F)
    (caps : Capabilities) (settings : Settings) (bufferformat : List (DataDeclaration F))
    (size arraylength1 arraylength2 : Nat) (hsize : size ≠ 0) :
    Buffer.construct cat caps settings bufferformat size arraylength1 =
      Buffer.construct cat caps settings bufferformat size arraylength2 := by
  have hres : ∀ stride, resolveSize stride size arraylength1 =
      resolveSize stride size arraylength2 := by
    intro stride
    unfold resolveSize
    rw [if_pos hsize, if_pos hsize]
  have n1 : ¬(size = 0 ∧ arraylength1 = 0) := fun h => hsize h.1
  have n2 : ¬(size = 0 ∧ arraylength2 = 0) := fun h => hsize h.1
  unfold Buffer.construct
  rw [if_neg n1, if_neg n2]
  simp only [hres]

/-- Witness of C18: 81 requested bytes with requested array lengths 0 and 1000 give the
same 100-byte buffer of 5 elements. -/
theorem C18_array_length_ignored_witness :
    Buffer.construct loveCatalog (mkCapabilities false false 0)
        { typeFlags := TYPEFLAG_VERTEX } sampleVertexFormat 81 0 =
      Buffer.construct loveCatalog (mkCapabilities false false 0)
        { typeFlags := TYPEFLAG_VERTEX } sampleVertexFormat 81 1000 ∧
    (Buffer.construct loveCatalog (mkCapabilities false false 0)
        { typeFlags := TYPEFLAG_VERTEX } sampleVertexFormat 81 1000).toOption.map
          (fun b => (b.size, b.arrayLength)) = some (100, 5) :=
  ⟨C18_array_length_ignored loveCatalog (mkCapabilities false false 0)
    { typeFlags := TYPEFLAG_VERTEX } sampleVertexFormat 81 0 1000 (by decide), rfl⟩

end SizeClaims

end graphics
end love
